import Mathlib

/- Shallow embedding of the three MCP services of tansunyj/mysql_mcp_server
   (mcp_mysql.py, mcp_math.py, mcp_geometry.py).  Python values, exceptions,
   the MySQL driver and the math/drawing libraries are modelled explicitly;
   machine floats are modelled as exact rationals, with the external library
   functions (sin, cos, tan, sqrt, pi, radians, matplotlib rendering, the
   MySQL server) taken as oracle parameters. -/

/-- Python values as they appear in tool arguments and driver rows. -/
inductive PyVal where
  | num (q : ℚ)
  | str (s : String)
  | pynone
  | arr (l : List PyVal)
deriving Repr

/-- Python truthiness (`if not x`, `all([...])`): 0, "", None, [] are falsy. -/
def pyTruthy : PyVal → Bool
  | .num q => q != 0
  | .str s => s != ""
  | .pynone => false
  | .arr l => !l.isEmpty

/-- Python `str()` of a value, as used in f-strings.  The repr of nested
    lists is abbreviated; no operation of the embedded code inspects it. -/
def pyStrOf : PyVal → String
  | .num q => toString q
  | .str s => s
  | .pynone => "None"
  | .arr _ => "[...]"

/-- Python exceptions that the embedded code can raise or catch.
    `driverError` stands for `mysql.connector.Error`; everything else is
    outside that class and hence not caught by `except Error`. -/
inductive PyExc where
  | driverError (msg : String)
  | keyError (k : String)
  | typeError (msg : String)
  | valueError (msg : String)
  | zeroDivisionError
  | otherError (msg : String)
deriving Repr, DecidableEq

/-- Whether an exception is a `mysql.connector.Error` (matched by
    `except Error as e`). -/
def PyExc.isDriver : PyExc → Bool
  | .driverError _ => true
  | _ => false

/-- Python `str(e)` for the exceptions above. -/
def PyExc.message : PyExc → String
  | .driverError m => m
  | .keyError k => "\x27" ++ k ++ "\x27"
  | .typeError m => m
  | .valueError m => m
  | .zeroDivisionError => "float division by zero"
  | .otherError m => m

/-- The `arguments` dict of a tool call. -/
def Args : Type := List (String × PyVal)

/-- `arguments.get(k)` (first binding wins, like a dict with unique keys). -/
def argGet (args : Args) (k : String) : Option PyVal :=
  (List.find? (fun p => p.1 == k) args).map (fun p => p.2)

/-- `arguments.get(k, d)`. -/
def argGetD (args : Args) (k : String) (d : PyVal) : PyVal :=
  (argGet args k).getD d

/-- `arguments[k]`: raises `KeyError` when the key is absent. -/
def dictItem (args : Args) (k : String) : Except PyExc PyVal :=
  match argGet args k with
  | some v => Except.ok v
  | none => Except.error (PyExc.keyError k)

/-- `TextContent(type="text", text=...)` from mcp.types. -/
structure TextContent where
  text : String
deriving Repr, DecidableEq

/-- `Resource(uri=..., name=..., mimeType=..., description=...)`. -/
structure Resource where
  uri : String
  name : String
  mimeType : String
  description : String
deriving Repr, DecidableEq

/-- One property of a tool's JSON input schema. -/
structure SchemaProp where
  pname : String
  ptype : String
  pdesc : String
  pdefault : Option ℚ
deriving Repr, DecidableEq

/-- A tool's `inputSchema`. -/
structure ToolSchema where
  properties : List SchemaProp
  required : List String
deriving Repr, DecidableEq

/-- `Tool(name=..., description=..., inputSchema=...)`. -/
structure Tool where
  name : String
  description : String
  inputSchema : ToolSchema
deriving Repr, DecidableEq

/-- Python float division: raises ZeroDivisionError on divisor 0. -/
def pyDiv (a b : ℚ) : Except PyExc ℚ :=
  if b = 0 then Except.error PyExc.zeroDivisionError else Except.ok (a / b)

/-- Python `float(x)` applied to a tool argument: numbers pass through,
    numeric strings parse, None raises TypeError, lists raise TypeError. -/
def pyFloat : PyVal → Except PyExc ℚ
  | .num q => Except.ok q
  | .str s =>
      match s.toInt? with
      | some n => Except.ok (n : ℚ)
      | none => Except.error (PyExc.valueError ("could not convert string to float: \x27" ++ s ++ "\x27"))
  | .pynone => Except.error (PyExc.typeError "float() argument must be a string or a real number, not \x27NoneType\x27")
  | .arr _ => Except.error (PyExc.typeError "float() argument must be a string or a real number, not \x27list\x27")

namespace MysqlService

/-- The process environment (`os.getenv`). -/
structure OSEnv where
  vars : List (String × String)

/-- `os.getenv(k, d)`. -/
def getenvD (e : OSEnv) (k d : String) : String :=
  ((List.find? (fun p => p.1 == k) e.vars).map (fun p => p.2)).getD d

/-- Set one environment variable (first binding wins on lookup). -/
def setVar (e : OSEnv) (k v : String) : OSEnv :=
  ⟨(k, v) :: e.vars⟩

/-- The connection-parameter dict built by `get_db_config`.  Every entry has
    a non-None default, so the `None`-filtering step of the source never
    removes anything. -/
structure Config where
  host : String
  port : Int
  user : String
  password : String
  database : String
  charset : String
  collation : String
  autocommit : Bool
  sql_mode : String
deriving Repr, DecidableEq

/-- Python `int(s)`: raises ValueError when `s` is not an integer literal. -/
def pyIntParse (s : String) : Except PyExc Int :=
  match s.toInt? with
  | some n => Except.ok n
  | none => Except.error (PyExc.valueError ("invalid literal for int() with base 10: \x27" ++ s ++ "\x27"))

/-- `get_db_config` of mcp_mysql.py: reads the environment with the
    documented defaults; `int(os.getenv("MYSQL_PORT","3306"))` may raise. -/
def get_db_config (e : OSEnv) : Except PyExc Config :=
  match pyIntParse (getenvD e "MYSQL_PORT" "3306") with
  | Except.error ex => Except.error ex
  | Except.ok port =>
      Except.ok
        { host := getenvD e "MYSQL_HOST" "localhost"
          port := port
          user := getenvD e "MYSQL_USER" "root"
          password := getenvD e "MYSQL_PASSWORD" "123456"
          database := getenvD e "MYSQL_DATABASE" "ai_content_db"
          charset := getenvD e "MYSQL_CHARSET" "utf8mb4"
          collation := getenvD e "MYSQL_COLLATION" "utf8mb4_unicode_ci"
          autocommit := true
          sql_mode := getenvD e "MYSQL_SQL_MODE" "TRADITIONAL" }

/-- The `safe_config` copy that `get_db_config` logs: password masked. -/
def safe_config (c : Config) : Config :=
  { c with password := "******" }

/-- The configuration value that reaches the log line
    `logger.info(f"MySQL配置: {safe_config}")`. -/
def loggedSafeConfig (e : OSEnv) : Except PyExc Config :=
  (get_db_config e).map safe_config

/-- The startup printout of `main` (lines written to stderr). -/
def startupPrint (e : OSEnv) : Except PyExc (List String) :=
  (get_db_config e).map (fun c =>
    [ "Starting MySQL MCP server with config:"
    , "Host: " ++ c.host
    , "Port: " ++ toString c.port
    , "User: " ++ c.user
    , "Database: " ++ c.database
    , "Charset: " ++ c.charset ])

/- ---------------------------------------------------------------- -/

/-- One row fetched by a cursor: column name / value pairs.  Dict-cursor
    access (`row['k']`) looks a name up; tuple access (`db[0]`) takes the
    first component. -/
def Row : Type := List (String × PyVal)

/-- Outcome of `cursor.execute(stmt, params)` against the external server:
    a result set (`cursor.description` non-null), a statement with only an
    affected-row count, or a raised exception. -/
inductive ExecOutcome where
  | rows (rs : List Row)
  | affected (n : Int)
  | raises (e : PyExc)

/-- The external MySQL server and driver, as an oracle: whether `connect`
    raises, and what each executed statement does. -/
structure DBEnv where
  connectExc : Option PyExc
  exec : String → List PyVal → ExecOutcome

/-- Ledger of connection lifecycle events performed by one operation. -/
structure Ledger where
  opened : Nat
  closed : Nat
deriving Repr, DecidableEq

/-- `get_mysql_connection`: builds the config and calls `connect(**config)`;
    any exception (driver `Error` or the config's ValueError) propagates to
    the caller; on success one connection is opened. -/
def get_mysql_connection (env : DBEnv) (l : Ledger) : Except PyExc Unit × Ledger :=
  match env.connectExc with
  | some e => (Except.error e, l)
  | none => (Except.ok (), ⟨l.opened + 1, l.closed⟩)

/-- `conn.close()`. -/
def closeConn (l : Ledger) : Ledger :=
  ⟨l.opened, l.closed + 1⟩

/-- `cursor.execute(stmt); cursor.fetchall()`: rows on a result set, an
    InterfaceError (a driver `Error`) when there is no result set to fetch,
    or the execute's own exception. -/
def fetchallOf : ExecOutcome → Except PyExc (List Row)
  | .rows rs => Except.ok rs
  | .affected _ => Except.error (PyExc.driverError "No result set to fetch from.")
  | .raises e => Except.error e

/-- `cursor.execute(stmt)` where the result is not fetched (the `USE`
    statements): only a raised exception matters. -/
def execOnly : ExecOutcome → Except PyExc Unit
  | .raises e => Except.error e
  | _ => Except.ok ()

/-- `row[k]` on a dict row: KeyError when the column is absent. -/
def rowGet (r : Row) (k : String) : Except PyExc PyVal :=
  match List.find? (fun p => p.1 == k) r with
  | some p => Except.ok p.2
  | none => Except.error (PyExc.keyError k)

/-- The list comprehension `[row[k] for row in rs]`. -/
def rowsGetAll (rs : List Row) (k : String) : Except PyExc (List PyVal) :=
  match rs with
  | [] => Except.ok []
  | r :: rest =>
      match rowGet r k with
      | Except.error e => Except.error e
      | Except.ok v =>
          match rowsGetAll rest k with
          | Except.error e => Except.error e
          | Except.ok vs => Except.ok (v :: vs)

/-- `db[0]` on a tuple row: IndexError on an empty tuple. -/
def rowFirst (r : Row) : Except PyExc PyVal :=
  match r with
  | [] => Except.error (PyExc.otherError "tuple index out of range")
  | p :: _ => Except.ok p.2

/-- First components of every row (`db[0] for db in databases`). -/
def rowsFirstAll (rs : List Row) : Except PyExc (List PyVal) :=
  match rs with
  | [] => Except.ok []
  | r :: rest =>
      match rowFirst r with
      | Except.error e => Except.error e
      | Except.ok v =>
          match rowsFirstAll rest with
          | Except.error e => Except.error e
          | Except.ok vs => Except.ok (v :: vs)

/-- The result dicts produced by the five DB handlers, one constructor per
    dict shape appearing in the source. -/
inductive OpResult where
  | succeedData (rows : List Row)
  | succeedAffected (n : Int)
  | succeedDatabases (vals : List PyVal)
  | succeedTables (vals : List PyVal)
  | succeedStructure (rows : List Row)
  | err (msg : String)

/-- `query_mysql(sql)`: try / `except Error` / `finally` with
    `if 'conn' in locals() and conn: conn.close()` — the connection, once
    opened, is closed on every path. -/
def query_mysql (env : DBEnv) (sql : String) (l : Ledger) :
    Except PyExc OpResult × Ledger :=
  match get_mysql_connection env l with
  | (Except.error e, l1) =>
      (if e.isDriver then Except.ok (OpResult.err e.message) else Except.error e, l1)
  | (Except.ok _, l1) =>
      match env.exec sql [] with
      | .raises e =>
          (if e.isDriver then Except.ok (OpResult.err e.message) else Except.error e,
           closeConn l1)
      | .rows rs => (Except.ok (OpResult.succeedData rs), closeConn l1)
      | .affected n => (Except.ok (OpResult.succeedAffected n), closeConn l1)

/-- `list_databases()`: `conn.close()` is reached only on the fully
    successful path; a driver error after connecting leaves the connection
    open, and a KeyError from `row['Database']` propagates uncaught. -/
def list_databases (env : DBEnv) (l : Ledger) : Except PyExc OpResult × Ledger :=
  match get_mysql_connection env l with
  | (Except.error e, l1) =>
      (if e.isDriver then Except.ok (OpResult.err e.message) else Except.error e, l1)
  | (Except.ok _, l1) =>
      match fetchallOf (env.exec "SHOW DATABASES" []) with
      | Except.error e =>
          (if e.isDriver then Except.ok (OpResult.err e.message) else Except.error e, l1)
      | Except.ok rs =>
          match rowsGetAll rs "Database" with
          | Except.error e => (Except.error e, l1)
          | Except.ok vs => (Except.ok (OpResult.succeedDatabases vs), closeConn l1)

/-- `list_tables(database)`: `USE` then `SHOW TABLES`; close only on the
    successful path. -/
def list_tables (env : DBEnv) (database : PyVal) (l : Ledger) :
    Except PyExc OpResult × Ledger :=
  match get_mysql_connection env l with
  | (Except.error e, l1) =>
      (if e.isDriver then Except.ok (OpResult.err e.message) else Except.error e, l1)
  | (Except.ok _, l1) =>
      match execOnly (env.exec ("USE `" ++ pyStrOf database ++ "`") []) with
      | Except.error e =>
          (if e.isDriver then Except.ok (OpResult.err e.message) else Except.error e, l1)
      | Except.ok _ =>
          match fetchallOf (env.exec "SHOW TABLES" []) with
          | Except.error e =>
              (if e.isDriver then Except.ok (OpResult.err e.message) else Except.error e, l1)
          | Except.ok rs =>
              match rowsGetAll rs ("Tables_in_" ++ pyStrOf database) with
              | Except.error e => (Except.error e, l1)
              | Except.ok vs => (Except.ok (OpResult.succeedTables vs), closeConn l1)

/-- `describe_table(database, table)`: `USE` then `DESCRIBE`; close only on
    the successful path. -/
def describe_table (env : DBEnv) (database table : PyVal) (l : Ledger) :
    Except PyExc OpResult × Ledger :=
  match get_mysql_connection env l with
  | (Except.error e, l1) =>
      (if e.isDriver then Except.ok (OpResult.err e.message) else Except.error e, l1)
  | (Except.ok _, l1) =>
      match execOnly (env.exec ("USE `" ++ pyStrOf database ++ "`") []) with
      | Except.error e =>
          (if e.isDriver then Except.ok (OpResult.err e.message) else Except.error e, l1)
      | Except.ok _ =>
          match fetchallOf (env.exec ("DESCRIBE `" ++ pyStrOf table ++ "`") []) with
          | Except.error e =>
              (if e.isDriver then Except.ok (OpResult.err e.message) else Except.error e, l1)
          | Except.ok rs => (Except.ok (OpResult.succeedStructure rs), closeConn l1)

/-- `search_table(database, table, column, keyword, limit)`: `USE` then a
    parameterised `SELECT ... LIKE %s LIMIT %s`; close only on the
    successful path. -/
def search_table (env : DBEnv) (database table column keyword lim : PyVal)
    (l : Ledger) : Except PyExc OpResult × Ledger :=
  match get_mysql_connection env l with
  | (Except.error e, l1) =>
      (if e.isDriver then Except.ok (OpResult.err e.message) else Except.error e, l1)
  | (Except.ok _, l1) =>
      match execOnly (env.exec ("USE `" ++ pyStrOf database ++ "`") []) with
      | Except.error e =>
          (if e.isDriver then Except.ok (OpResult.err e.message) else Except.error e, l1)
      | Except.ok _ =>
          match fetchallOf (env.exec
              ("SELECT * FROM `" ++ pyStrOf table ++ "` WHERE `" ++ pyStrOf column
                ++ "` LIKE %s LIMIT %s")
              [PyVal.str ("%" ++ pyStrOf keyword ++ "%"), lim]) with
          | Except.error e =>
              (if e.isDriver then Except.ok (OpResult.err e.message) else Except.error e, l1)
          | Except.ok rs => (Except.ok (OpResult.succeedData rs), closeConn l1)

/-- One `Resource` per database name, as built by `list_resources`. -/
def mkResourceOf (v : PyVal) : Resource :=
  { uri := "mysql://" ++ pyStrOf v
    name := "数据库: " ++ pyStrOf v
    mimeType := "text/plain"
    description := "数据库: " ++ pyStrOf v }

/-- `list_resources()`: one scoped probe connection; `except Error` degrades
    to the empty list.  No path of this function ever calls `conn.close()`. -/
def list_resources (env : DBEnv) (l : Ledger) :
    Except PyExc (List Resource) × Ledger :=
  match get_mysql_connection env l with
  | (Except.error e, l1) =>
      (if e.isDriver then Except.ok [] else Except.error e, l1)
  | (Except.ok _, l1) =>
      match fetchallOf (env.exec "SHOW DATABASES" []) with
      | Except.error e =>
          (if e.isDriver then Except.ok [] else Except.error e, l1)
      | Except.ok rs =>
          match rowsFirstAll rs with
          | Except.error e => (Except.error e, l1)
          | Except.ok names => (Except.ok (names.map mkResourceOf), l1)

/-- Abbreviated `str(result)` rendering of an OpResult dict (the envelope
    text; Python's exact dict repr, braces and quoting, is not reproduced —
    no claim inspects it). -/
def opResultStr : OpResult → String
  | .succeedData rows => "status=succeed data rows=" ++ toString rows.length
  | .succeedAffected n => "status=succeed affected_rows=" ++ toString n
  | .succeedDatabases vs => "status=succeed databases=" ++ toString (vs.map pyStrOf)
  | .succeedTables vs => "status=succeed tables=" ++ toString (vs.map pyStrOf)
  | .succeedStructure rows => "status=succeed structure rows=" ++ toString rows.length
  | .err m => "status=error error=" ++ m

/-- `list_tools()` of mcp_mysql.py, returned afresh on every call. -/
def list_tools (_ : Unit) : List Tool :=
  [ { name := "query_mysql"
      description := "执行SQL查询并返回结果"
      inputSchema :=
        { properties :=
            [⟨"sql", "string", "要执行的SQL语句（建议只支持SELECT）", none⟩]
          required := ["sql"] } }
  , { name := "list_databases"
      description := "查看MySQL服务器上的所有数据库"
      inputSchema := { properties := [], required := [] } }
  , { name := "list_tables"
      description := "查看指定数据库的所有表"
      inputSchema :=
        { properties := [⟨"database", "string", "数据库名", none⟩]
          required := ["database"] } }
  , { name := "describe_table"
      description := "查看指定表的结构"
      inputSchema :=
        { properties :=
            [⟨"database", "string", "数据库名", none⟩, ⟨"table", "string", "表名", none⟩]
          required := ["database", "table"] } }
  , { name := "search_table"
      description := "在指定表的指定字段中搜索包含关键字的数据"
      inputSchema :=
        { properties :=
            [ ⟨"database", "string", "数据库名", none⟩
            , ⟨"table", "string", "表名", none⟩
            , ⟨"column", "string", "字段名", none⟩
            , ⟨"keyword", "string", "关键字", none⟩
            , ⟨"limit", "integer", "返回条数，默认20", some 20⟩ ]
          required := ["database", "table", "column", "keyword"] } } ]

/-- Full outcome of one dispatcher invocation: the response (or the
    exception that escaped the dispatcher), the connection ledger, and the
    handlers that were actually invoked. -/
structure DispatchOut where
  response : Except PyExc (List TextContent)
  ledger : Ledger
  invoked : List String

/-- Wrap a handler result into the single text envelope
    (`str(result)` → `TextContent`); an escaping exception stays an
    exception because `call_tool` of mcp_mysql.py has no try/except. -/
def envelope (r : Except PyExc OpResult) : Except PyExc (List TextContent) :=
  match r with
  | Except.error e => Except.error e
  | Except.ok d => Except.ok [⟨opResultStr d⟩]

/-- `call_tool(name, arguments)` of mcp_mysql.py: routing by name,
    truthiness checks on required arguments, no surrounding try/except. -/
def call_tool (env : DBEnv) (name : String) (args : Args) (l : Ledger) :
    DispatchOut :=
  if name == "query_mysql" then
    let sql := argGetD args "sql" PyVal.pynone
    if !pyTruthy sql then ⟨Except.ok [⟨"SQL查询语句是必需的"⟩], l, []⟩
    else
      let (r, l') := query_mysql env (pyStrOf sql) l
      ⟨envelope r, l', ["query_mysql"]⟩
  else if name == "list_databases" then
    let (r, l') := list_databases env l
    ⟨envelope r, l', ["list_databases"]⟩
  else if name == "list_tables" then
    let database := argGetD args "database" PyVal.pynone
    if !pyTruthy database then ⟨Except.ok [⟨"数据库名是必需的"⟩], l, []⟩
    else
      let (r, l') := list_tables env database l
      ⟨envelope r, l', ["list_tables"]⟩
  else if name == "describe_table" then
    let database := argGetD args "database" PyVal.pynone
    let table := argGetD args "table" PyVal.pynone
    if !pyTruthy database || !pyTruthy table then
      ⟨Except.ok [⟨"数据库名和表名都是必需的"⟩], l, []⟩
    else
      let (r, l') := describe_table env database table l
      ⟨envelope r, l', ["describe_table"]⟩
  else if name == "search_table" then
    let database := argGetD args "database" PyVal.pynone
    let table := argGetD args "table" PyVal.pynone
    let column := argGetD args "column" PyVal.pynone
    let keyword := argGetD args "keyword" PyVal.pynone
    let lim := argGetD args "limit" (PyVal.num 20)
    if !(pyTruthy database && pyTruthy table && pyTruthy column && pyTruthy keyword) then
      ⟨Except.ok [⟨"数据库名、表名、字段名和关键字都是必需的"⟩], l, []⟩
    else
      let (r, l') := search_table env database table column keyword lim l
      ⟨envelope r, l', ["search_table"]⟩
  else
    ⟨Except.ok [⟨"未知工具: " ++ name⟩], l, []⟩

end MysqlService

namespace MathService

/-- The math library (`math.pi`, `math.sqrt`, `math.radians`, `math.sin`,
    `math.cos`, `math.tan`) as an oracle over the rational float model. -/
structure MathOracle where
  pi : ℚ
  sqrtF : ℚ → ℚ
  radiansF : ℚ → ℚ
  sinF : ℚ → ℚ
  cosF : ℚ → ℚ
  tanF : ℚ → ℚ

/-- The `perimeter` entry of a calculation result: a number or the
    Chinese sentinel string asking for the three side lengths. -/
inductive PerimVal where
  | val (q : ℚ)
  | sentinel
deriving Repr, DecidableEq

/-- The dict returned by the area/perimeter calculators. -/
structure CalcResult where
  area : ℚ
  perimeter : PerimVal
deriving Repr, DecidableEq

/-- The `cot` entry of a trig result: a number or `float('inf')`. -/
inductive CotVal where
  | val (q : ℚ)
  | inf
deriving Repr, DecidableEq

/-- The dict returned by `calculate_trig_functions`. -/
structure TrigResult where
  sin : ℚ
  cos : ℚ
  tan : ℚ
  cot : CotVal
deriving Repr, DecidableEq

/-- `calculate_triangle(base, height, a=None, b=None, c=None)`: area from
    base and height; perimeter `a+b+c` when all three sides are given,
    otherwise None; the final dict applies `perimeter if perimeter else
    <sentinel>`, so None — and also an exact-zero perimeter — becomes the
    sentinel string. -/
def calculate_triangle (base height : ℚ) (a b c : Option ℚ) : CalcResult :=
  let area := (0.5 : ℚ) * base * height
  let perimeter : Option ℚ :=
    match a, b, c with
    | some x, some y, some z => some (x + y + z)
    | _, _, _ => none
  { area := area
    perimeter :=
      match perimeter with
      | some p => if p ≠ 0 then PerimVal.val p else PerimVal.sentinel
      | none => PerimVal.sentinel }

/-- `calculate_circle(radius)`. -/
def calculate_circle (O : MathOracle) (radius : ℚ) : CalcResult :=
  { area := O.pi * radius * radius
    perimeter := PerimVal.val (2 * O.pi * radius) }

/-- `calculate_ellipse(a, b)` with Ramanujan's approximation; the two float
    divisions can raise ZeroDivisionError. -/
def calculate_ellipse (O : MathOracle) (a b : ℚ) : Except PyExc CalcResult :=
  let area := O.pi * a * b
  match pyDiv (a - b) (a + b) with
  | Except.error e => Except.error e
  | Except.ok q =>
      let h := q * q
      match pyDiv (3 * h) (10 + O.sqrtF (4 - 3 * h)) with
      | Except.error e => Except.error e
      | Except.ok inner =>
          Except.ok { area := area, perimeter := PerimVal.val (O.pi * (a + b) * (1 + inner)) }

/-- `calculate_trapezoid(a, b, h, c=None, d=None)`: `c + d if c and d else
    2*sqrt(h**2 + ((b-a)/2)**2)` — Python truthiness on the optional
    sides. -/
def calculate_trapezoid (O : MathOracle) (a b h : ℚ) (c d : Option ℚ) : CalcResult :=
  let area := (a + b) * h / 2
  let legs :=
    match c, d with
    | some cv, some dv =>
        if cv ≠ 0 ∧ dv ≠ 0 then cv + dv
        else 2 * O.sqrtF (h ^ 2 + ((b - a) / 2) ^ 2)
    | _, _ => 2 * O.sqrtF (h ^ 2 + ((b - a) / 2) ^ 2)
  { area := area, perimeter := PerimVal.val (a + b + legs) }

/-- `calculate_trig_functions(angle_degrees)`: the cot entry is
    `1 / math.tan(angle_rad) if math.tan(angle_rad) != 0 else float('inf')`. -/
def calculate_trig_functions (O : MathOracle) (angle_degrees : ℚ) :
    Except PyExc TrigResult :=
  let angle_rad := O.radiansF angle_degrees
  match (if O.tanF angle_rad ≠ 0
         then (pyDiv 1 (O.tanF angle_rad)).map CotVal.val
         else Except.ok CotVal.inf) with
  | Except.error e => Except.error e
  | Except.ok cot =>
      Except.ok { sin := O.sinF angle_rad, cos := O.cosF angle_rad
                  tan := O.tanF angle_rad, cot := cot }

/-- `float(arguments[k])`: KeyError when absent, then float conversion. -/
def getFloatReq (args : Args) (k : String) : Except PyExc ℚ :=
  match dictItem args k with
  | Except.error e => Except.error e
  | Except.ok v => pyFloat v

/-- `float(arguments.get(k, None))`: TypeError on an absent field. -/
def getFloatOpt (args : Args) (k : String) : Except PyExc ℚ :=
  pyFloat (argGetD args k PyVal.pynone)

/-- A handler result of the math dispatcher. -/
inductive MathOut where
  | calcR (r : CalcResult)
  | trigR (r : TrigResult)
deriving Repr, DecidableEq

/-- Abbreviated `str(result)` of a math result dict (exact Python repr not
    reproduced; no claim inspects it). -/
def mathOutStr : MathOut → String
  | .calcR r =>
      "area=" ++ toString r.area ++ " perimeter=" ++
        (match r.perimeter with
         | .val q => toString q
         | .sentinel => "需要提供三边长才能计算周长")
  | .trigR r =>
      "sin=" ++ toString r.sin ++ " cos=" ++ toString r.cos ++
        " tan=" ++ toString r.tan ++ " cot=" ++
        (match r.cot with
         | .val q => toString q
         | .inf => "inf")

/-- The body of `call_tool` of mcp_math.py inside its `try`: argument
    conversion (which may raise), then the handler (which may raise), with
    the list of handlers actually invoked.  `result` stays `None` on an
    unknown name. -/
def call_tool_body (O : MathOracle) (name : String) (args : Args) :
    Except PyExc (Option MathOut) × List String :=
  if name == "triangle_calc" then
    match (do
      let base ← getFloatReq args "base"
      let height ← getFloatReq args "height"
      let a ← getFloatOpt args "a"
      let b ← getFloatOpt args "b"
      let c ← getFloatOpt args "c"
      Except.ok (base, height, a, b, c)) with
    | Except.error e => (Except.error e, [])
    | Except.ok (base, height, a, b, c) =>
        (Except.ok (some (MathOut.calcR
          (calculate_triangle base height (some a) (some b) (some c)))),
         ["calculate_triangle"])
  else if name == "circle_calc" then
    match getFloatReq args "radius" with
    | Except.error e => (Except.error e, [])
    | Except.ok radius =>
        (Except.ok (some (MathOut.calcR (calculate_circle O radius))), ["calculate_circle"])
  else if name == "ellipse_calc" then
    match (do
      let a ← getFloatReq args "a"
      let b ← getFloatReq args "b"
      Except.ok (a, b)) with
    | Except.error e => (Except.error e, [])
    | Except.ok (a, b) =>
        match calculate_ellipse O a b with
        | Except.error e => (Except.error e, ["calculate_ellipse"])
        | Except.ok r => (Except.ok (some (MathOut.calcR r)), ["calculate_ellipse"])
  else if name == "trapezoid_calc" then
    match (do
      let a ← getFloatReq args "a"
      let b ← getFloatReq args "b"
      let h ← getFloatReq args "height"
      let c ← getFloatOpt args "c"
      let d ← getFloatOpt args "d"
      Except.ok (a, b, h, c, d)) with
    | Except.error e => (Except.error e, [])
    | Except.ok (a, b, h, c, d) =>
        (Except.ok (some (MathOut.calcR
          (calculate_trapezoid O a b h (some c) (some d)))),
         ["calculate_trapezoid"])
  else if name == "trig_functions" then
    match getFloatReq args "angle" with
    | Except.error e => (Except.error e, [])
    | Except.ok angle =>
        match calculate_trig_functions O angle with
        | Except.error e => (Except.error e, ["calculate_trig_functions"])
        | Except.ok r => (Except.ok (some (MathOut.trigR r)), ["calculate_trig_functions"])
  else (Except.ok none, [])

/-- `call_tool(name, arguments)` of mcp_math.py: the whole body sits in a
    `try ... except Exception`, so every raised exception becomes the
    `计算出错: ...` envelope; `if result:` turns a still-None result into
    the unknown-type envelope. -/
def call_tool (O : MathOracle) (name : String) (args : Args) :
    List TextContent × List String :=
  match call_tool_body O name args with
  | (Except.error e, inv) => ([⟨"计算出错: " ++ e.message⟩], inv)
  | (Except.ok (some r), inv) => ([⟨mathOutStr r⟩], inv)
  | (Except.ok none, inv) => ([⟨"未知的计算类型"⟩], inv)

/-- `list_tools()` of mcp_math.py. -/
def list_tools (_ : Unit) : List Tool :=
  [ { name := "triangle_calc"
      description := "计算三角形的面积和周长"
      inputSchema :=
        { properties :=
            [ ⟨"base", "number", "底边长", none⟩
            , ⟨"height", "number", "高", none⟩
            , ⟨"a", "number", "边长a（可选）", none⟩
            , ⟨"b", "number", "边长b（可选）", none⟩
            , ⟨"c", "number", "边长c（可选）", none⟩ ]
          required := ["base", "height"] } }
  , { name := "circle_calc"
      description := "计算圆的面积和周长"
      inputSchema :=
        { properties := [⟨"radius", "number", "半径", none⟩]
          required := ["radius"] } }
  , { name := "ellipse_calc"
      description := "计算椭圆的面积和周长"
      inputSchema :=
        { properties :=
            [⟨"a", "number", "长半轴", none⟩, ⟨"b", "number", "短半轴", none⟩]
          required := ["a", "b"] } }
  , { name := "trapezoid_calc"
      description := "计算梯形的面积和周长"
      inputSchema :=
        { properties :=
            [ ⟨"a", "number", "上底", none⟩
            , ⟨"b", "number", "下底", none⟩
            , ⟨"height", "number", "高", none⟩
            , ⟨"c", "number", "左边长（可选）", none⟩
            , ⟨"d", "number", "右边长（可选）", none⟩ ]
          required := ["a", "b", "height"] } }
  , { name := "trig_functions"
      description := "计算三角函数值（正弦、余弦、正切、余切）"
      inputSchema :=
        { properties := [⟨"angle", "number", "角度值（度）", none⟩]
          required := ["angle"] } } ]

end MathService

namespace GeometryService

/-- The matplotlib-backed drawing functions of mcp_geometry.py as an
    oracle: each takes the raw argument values the dispatcher hands over
    and yields base64 PNG text or raises. -/
structure GeomOracle where
  draw_line : PyVal → PyVal → PyVal → PyVal → Except PyExc String
  draw_triangle : PyVal → Except PyExc String
  draw_rectangle : PyVal → PyVal → PyVal → PyVal → Except PyExc String
  draw_polygon : PyVal → Except PyExc String
  draw_trapezoid : PyVal → Except PyExc String
  draw_circle : PyVal → PyVal → PyVal → Except PyExc String
  draw_ellipse : PyVal → PyVal → PyVal → PyVal → Except PyExc String
  draw_sin_curve : PyVal → PyVal → Except PyExc String
  draw_cos_curve : PyVal → PyVal → Except PyExc String

/-- Wrap an image as the plain data-URI text envelope. -/
def dataUri (img : String) : List TextContent :=
  [⟨"data:image/png;base64," ++ img⟩]

/-- The body of `call_tool` of mcp_geometry.py inside its `try`: only
    `draw_circle` validates the presence of its required keys; every other
    branch passes `arguments.get(...)` — `None` when absent — straight to
    its drawing function. -/
def call_tool_body (O : GeomOracle) (name : String) (args : Args) :
    Except PyExc (List TextContent) × List String :=
  if name == "draw_circle" then
    if !(["center_x", "center_y", "radius"].all (fun k => (argGet args k).isSome)) then
      (Except.ok [⟨"缺少必要参数"⟩], [])
    else
      match O.draw_circle (argGetD args "center_x" PyVal.pynone)
          (argGetD args "center_y" PyVal.pynone) (argGetD args "radius" PyVal.pynone) with
      | Except.error e => (Except.error e, ["draw_circle"])
      | Except.ok img =>
          (Except.ok [⟨"![circle](data:image/png;base64," ++ img ++ ")"⟩], ["draw_circle"])
  else if name == "draw_line" then
    match O.draw_line (argGetD args "x1" PyVal.pynone) (argGetD args "y1" PyVal.pynone)
        (argGetD args "x2" PyVal.pynone) (argGetD args "y2" PyVal.pynone) with
    | Except.error e => (Except.error e, ["draw_line"])
    | Except.ok img => (Except.ok (dataUri img), ["draw_line"])
  else if name == "draw_triangle" then
    match O.draw_triangle (argGetD args "points" PyVal.pynone) with
    | Except.error e => (Except.error e, ["draw_triangle"])
    | Except.ok img => (Except.ok (dataUri img), ["draw_triangle"])
  else if name == "draw_rectangle" then
    match O.draw_rectangle (argGetD args "x" PyVal.pynone) (argGetD args "y" PyVal.pynone)
        (argGetD args "width" PyVal.pynone) (argGetD args "height" PyVal.pynone) with
    | Except.error e => (Except.error e, ["draw_rectangle"])
    | Except.ok img => (Except.ok (dataUri img), ["draw_rectangle"])
  else if name == "draw_polygon" then
    match O.draw_polygon (argGetD args "points" PyVal.pynone) with
    | Except.error e => (Except.error e, ["draw_polygon"])
    | Except.ok img => (Except.ok (dataUri img), ["draw_polygon"])
  else if name == "draw_trapezoid" then
    match O.draw_trapezoid (argGetD args "points" PyVal.pynone) with
    | Except.error e => (Except.error e, ["draw_trapezoid"])
    | Except.ok img => (Except.ok (dataUri img), ["draw_trapezoid"])
  else if name == "draw_ellipse" then
    match O.draw_ellipse (argGetD args "center_x" PyVal.pynone)
        (argGetD args "center_y" PyVal.pynone) (argGetD args "width" PyVal.pynone)
        (argGetD args "height" PyVal.pynone) with
    | Except.error e => (Except.error e, ["draw_ellipse"])
    | Except.ok img => (Except.ok (dataUri img), ["draw_ellipse"])
  else if name == "draw_sin_curve" then
    match O.draw_sin_curve (argGetD args "start_x" (PyVal.num 0))
        (argGetD args "end_x" (PyVal.num (157 / 25))) with
    | Except.error e => (Except.error e, ["draw_sin_curve"])
    | Except.ok img => (Except.ok (dataUri img), ["draw_sin_curve"])
  else if name == "draw_cos_curve" then
    match O.draw_cos_curve (argGetD args "start_x" (PyVal.num 0))
        (argGetD args "end_x" (PyVal.num (157 / 25))) with
    | Except.error e => (Except.error e, ["draw_cos_curve"])
    | Except.ok img => (Except.ok (dataUri img), ["draw_cos_curve"])
  else (Except.ok [⟨"未知工具: " ++ name⟩], [])

/-- `call_tool(name, arguments)` of mcp_geometry.py: the whole body sits in
    a `try ... except Exception`, so every raised exception becomes the
    `绘图出错: ...` envelope.  (The curve defaults stand for `2*np.pi`,
    modelled as the rational 6.28 of the declared schema default.) -/
def call_tool (O : GeomOracle) (name : String) (args : Args) :
    List TextContent × List String :=
  match call_tool_body O name args with
  | (Except.error e, inv) => ([⟨"绘图出错: " ++ e.message⟩], inv)
  | (Except.ok r, inv) => (r, inv)

/-- `list_tools()` of mcp_geometry.py. -/
def list_tools (_ : Unit) : List Tool :=
  [ { name := "draw_line"
      description := "绘制线段"
      inputSchema :=
        { properties :=
            [ ⟨"x1", "number", "起点x", none⟩, ⟨"y1", "number", "起点y", none⟩
            , ⟨"x2", "number", "终点x", none⟩, ⟨"y2", "number", "终点y", none⟩ ]
          required := ["x1", "y1", "x2", "y2"] } }
  , { name := "draw_triangle"
      description := "绘制三角形"
      inputSchema :=
        { properties :=
            [⟨"points", "array", "三角形三个顶点坐标，如[[x1,y1],[x2,y2],[x3,y3]]", none⟩]
          required := ["points"] } }
  , { name := "draw_rectangle"
      description := "绘制矩形"
      inputSchema :=
        { properties :=
            [ ⟨"x", "number", "左上角x", none⟩, ⟨"y", "number", "左上角y", none⟩
            , ⟨"width", "number", "宽度", none⟩, ⟨"height", "number", "高度", none⟩ ]
          required := ["x", "y", "width", "height"] } }
  , { name := "draw_polygon"
      description := "绘制多边形（如平行四边形）"
      inputSchema :=
        { properties :=
            [⟨"points", "array", "多边形顶点坐标，如[[x1,y1],[x2,y2],...]", none⟩]
          required := ["points"] } }
  , { name := "draw_trapezoid"
      description := "绘制梯形"
      inputSchema :=
        { properties :=
            [⟨"points", "array", "梯形四个顶点坐标，如[[x1,y1],[x2,y2],[x3,y3],[x4,y4]]", none⟩]
          required := ["points"] } }
  , { name := "draw_circle"
      description := "绘制圆"
      inputSchema :=
        { properties :=
            [ ⟨"center_x", "number", "圆心x", none⟩, ⟨"center_y", "number", "圆心y", none⟩
            , ⟨"radius", "number", "半径", none⟩ ]
          required := ["center_x", "center_y", "radius"] } }
  , { name := "draw_ellipse"
      description := "绘制椭圆"
      inputSchema :=
        { properties :=
            [ ⟨"center_x", "number", "中心x", none⟩, ⟨"center_y", "number", "中心y", none⟩
            , ⟨"width", "number", "宽轴", none⟩, ⟨"height", "number", "高轴", none⟩ ]
          required := ["center_x", "center_y", "width", "height"] } }
  , { name := "draw_sin_curve"
      description := "绘制正弦曲线"
      inputSchema :=
        { properties :=
            [ ⟨"start_x", "number", "起始x", some 0⟩
            , ⟨"end_x", "number", "终止x", some (157 / 25)⟩ ]
          required := [] } }
  , { name := "draw_cos_curve"
      description := "绘制余弦曲线"
      inputSchema :=
        { properties :=
            [ ⟨"start_x", "number", "起始x", some 0⟩
            , ⟨"end_x", "number", "终止x", some (157 / 25)⟩ ]
          required := [] } } ]

end GeometryService

/- ----------------------- claim theorems ----------------------- -/

/-- Whether an embedded computation completed without a raised exception. -/
def exOk {ε α : Type} : Except ε α → Bool
  | Except.ok _ => true
  | Except.error _ => false

/-- Claim C3 (code_bug): invoking `triangle_calc` with base 4 and height 3
    and no sides is specified to return area 6.0 and the sentinel
    perimeter, and `calculate_triangle(4, 3)` indeed produces exactly that;
    but the dispatcher wraps the absent sides as `float(arguments.get("a",
    None))`, so `float(None)` raises TypeError before the handler runs and
    the call returns the `计算出错` error envelope instead. -/
theorem C3_theorem :
    MathService.call_tool
        ⟨157 / 50, fun q => q, fun q => q, fun q => q, fun q => q, fun q => q⟩
        "triangle_calc" [("base", PyVal.num 4), ("height", PyVal.num 3)]
      = ([⟨"计算出错: float() argument must be a string or a real number, not \x27NoneType\x27"⟩], [])
    ∧ MathService.calculate_triangle 4 3 none none none
      = { area := 6, perimeter := MathService.PerimVal.sentinel } := by
  constructor
  · rfl
  · simp [MathService.calculate_triangle]
    norm_num

/-- Claim C7 (confirmed): `list_tools` of each of the three services is a
    pure constant — two successive calls return identical descriptor
    sequences — and the fixed tool-name order of each variant. -/
theorem C7_theorem :
    (MysqlService.list_tools () = MysqlService.list_tools ()
      ∧ MathService.list_tools () = MathService.list_tools ()
      ∧ GeometryService.list_tools () = GeometryService.list_tools ())
    ∧ (MysqlService.list_tools ()).map (fun t => t.name)
        = ["query_mysql", "list_databases", "list_tables", "describe_table", "search_table"]
    ∧ (MathService.list_tools ()).map (fun t => t.name)
        = ["triangle_calc", "circle_calc", "ellipse_calc", "trapezoid_calc", "trig_functions"]
    ∧ (GeometryService.list_tools ()).map (fun t => t.name)
        = ["draw_line", "draw_triangle", "draw_rectangle", "draw_polygon", "draw_trapezoid",
           "draw_circle", "draw_ellipse", "draw_sin_curve", "draw_cos_curve"] := by
  exact ⟨⟨rfl, rfl, rfl⟩, rfl, rfl, rfl⟩

/-- Claim C10 (confirmed): for every math-library oracle and every angle,
    `calculate_trig_functions` is total — the guarded division never raises
    — and the cot entry is `float('inf')` exactly when the tangent is zero,
    `1/tan` otherwise. -/
theorem C10_theorem (O : MathService.MathOracle) (a : ℚ) :
    MathService.calculate_trig_functions O a
      = Except.ok
          { sin := O.sinF (O.radiansF a)
            cos := O.cosF (O.radiansF a)
            tan := O.tanF (O.radiansF a)
            cot := if O.tanF (O.radiansF a) = 0 then MathService.CotVal.inf
                   else MathService.CotVal.val (1 / O.tanF (O.radiansF a)) }
    ∧ exOk (MathService.calculate_trig_functions O a) = true := by
  unfold MathService.calculate_trig_functions
  by_cases h : O.tanF (O.radiansF a) = 0 <;>
    simp [h, pyDiv, exOk, Except.map]

namespace MysqlService

/-- Setting MYSQL_PASSWORD leaves every other environment lookup
    unchanged. -/
theorem aux_getenv_set_other (e : OSEnv) (p k' d : String)
    (h : (("MYSQL_PASSWORD" : String) == k') = false) :
    getenvD (setVar e "MYSQL_PASSWORD" p) k' d = getenvD e k' d := by
  simp [getenvD, setVar, List.find?, h]

/-- Setting MYSQL_PASSWORD makes the password lookup return it. -/
theorem aux_getenv_set_same (e : OSEnv) (p d : String) :
    getenvD (setVar e "MYSQL_PASSWORD" p) "MYSQL_PASSWORD" d = p := by
  simp [getenvD, setVar, List.find?]

/-- `get_db_config` under a password override: only the password entry of
    the produced configuration changes. -/
theorem aux_db_config_set_password (e : OSEnv) (p : String) :
    get_db_config (setVar e "MYSQL_PASSWORD" p)
      = (get_db_config e).map (fun c => { c with password := p }) := by
  unfold get_db_config
  rw [aux_getenv_set_other e p "MYSQL_PORT" "3306" (by decide)]
  cases pyIntParse (getenvD e "MYSQL_PORT" "3306") with
  | error ex => rfl
  | ok port =>
      simp only [Except.map]
      rw [aux_getenv_set_other e p "MYSQL_HOST" "localhost" (by decide),
          aux_getenv_set_other e p "MYSQL_USER" "root" (by decide),
          aux_getenv_set_same,
          aux_getenv_set_other e p "MYSQL_DATABASE" "ai_content_db" (by decide),
          aux_getenv_set_other e p "MYSQL_CHARSET" "utf8mb4" (by decide),
          aux_getenv_set_other e p "MYSQL_COLLATION" "utf8mb4_unicode_ci" (by decide),
          aux_getenv_set_other e p "MYSQL_SQL_MODE" "TRADITIONAL" (by decide)]

end MysqlService

/-- Claim C8 (confirmed): the password never reaches a log or the startup
    printout in plaintext — two environments that differ only in
    MYSQL_PASSWORD produce the identical logged (masked) configuration and
    the identical startup configuration lines. -/
theorem C8_theorem (e : MysqlService.OSEnv) (p₁ p₂ : String) :
    MysqlService.loggedSafeConfig (MysqlService.setVar e "MYSQL_PASSWORD" p₁)
      = MysqlService.loggedSafeConfig (MysqlService.setVar e "MYSQL_PASSWORD" p₂)
    ∧ MysqlService.startupPrint (MysqlService.setVar e "MYSQL_PASSWORD" p₁)
      = MysqlService.startupPrint (MysqlService.setVar e "MYSQL_PASSWORD" p₂) := by
  constructor <;>
  · simp only [MysqlService.loggedSafeConfig, MysqlService.startupPrint,
      MysqlService.aux_db_config_set_password]
    cases MysqlService.get_db_config e <;>
      simp [MysqlService.safe_config, Except.map]

namespace MysqlService

/-- An external-store oracle whose every failure is a driver `Error`
    (`mysql.connector.Error`), during connect as well as execute. -/
def DBEnv.driverOnly (env : DBEnv) : Prop :=
  (∀ e, env.connectExc = some e → e.isDriver = true)
  ∧ (∀ s ps e, env.exec s ps = ExecOutcome.raises e → e.isDriver = true)

end MysqlService

/-- Claim C5 (confirmed): `query_mysql` returns the succeed/data dict on a
    result set, the succeed/affected_rows dict otherwise, the error dict on
    a driver error during connect or execute, and a driver failure never
    escapes it as an exception. -/
theorem C5_theorem (env : MysqlService.DBEnv) (sql : String) (l : MysqlService.Ledger) :
    (∀ m, env.connectExc = some (PyExc.driverError m) →
        (MysqlService.query_mysql env sql l).1
          = Except.ok (MysqlService.OpResult.err m))
    ∧ (∀ m, env.connectExc = none →
        env.exec sql [] = MysqlService.ExecOutcome.raises (PyExc.driverError m) →
        (MysqlService.query_mysql env sql l).1
          = Except.ok (MysqlService.OpResult.err m))
    ∧ (∀ rs, env.connectExc = none →
        env.exec sql [] = MysqlService.ExecOutcome.rows rs →
        (MysqlService.query_mysql env sql l).1
          = Except.ok (MysqlService.OpResult.succeedData rs))
    ∧ (∀ n, env.connectExc = none →
        env.exec sql [] = MysqlService.ExecOutcome.affected n →
        (MysqlService.query_mysql env sql l).1
          = Except.ok (MysqlService.OpResult.succeedAffected n))
    ∧ (env.driverOnly → exOk (MysqlService.query_mysql env sql l).1 = true) := by
  refine ⟨?_, ?_, ?_, ?_, ?_⟩
  · intro m hc
    simp [MysqlService.query_mysql, MysqlService.get_mysql_connection, hc,
      PyExc.isDriver, PyExc.message]
  · intro m hc he
    simp [MysqlService.query_mysql, MysqlService.get_mysql_connection, hc, he,
      PyExc.isDriver, PyExc.message]
  · intro rs hc he
    simp [MysqlService.query_mysql, MysqlService.get_mysql_connection, hc, he]
  · intro n hc he
    simp [MysqlService.query_mysql, MysqlService.get_mysql_connection, hc, he]
  · intro hdrv
    cases hc : env.connectExc with
    | some ex =>
        have hd := hdrv.1 ex hc
        simp [MysqlService.query_mysql, MysqlService.get_mysql_connection, hc, hd, exOk]
    | none =>
        cases he : env.exec sql [] with
        | rows rs =>
            simp [MysqlService.query_mysql, MysqlService.get_mysql_connection, hc, he, exOk]
        | affected n =>
            simp [MysqlService.query_mysql, MysqlService.get_mysql_connection, hc, he, exOk]
        | raises ex =>
            have hd := hdrv.2 sql [] ex he
            simp [MysqlService.query_mysql, MysqlService.get_mysql_connection, hc, he, hd, exOk]

/-- Concrete instance of C5: a connect-time driver error surfaces as the
    error dict. -/
theorem C5_witness :
    (MysqlService.query_mysql
        ⟨some (PyExc.driverError "2003: cannot connect"),
         fun _ _ => MysqlService.ExecOutcome.affected 0⟩
        "SELECT 1" ⟨0, 0⟩).1
      = Except.ok (MysqlService.OpResult.err "2003: cannot connect") :=
  (C5_theorem _ "SELECT 1" ⟨0, 0⟩).1 "2003: cannot connect" rfl

namespace MysqlService

/-- Extracting the first column of every row preserves the row count. -/
theorem aux_rowsFirstAll_length (rs : List Row) (ns : List PyVal)
    (h : rowsFirstAll rs = Except.ok ns) : ns.length = rs.length := by
  induction rs generalizing ns with
  | nil =>
      simp [rowsFirstAll] at h
      simp [← h]
  | cons r rest ih =>
      unfold rowsFirstAll at h
      cases hf : rowFirst r with
      | error e0 => rw [hf] at h; simp at h
      | ok v =>
          rw [hf] at h
          cases hr : rowsFirstAll rest with
          | error e0 => rw [hr] at h; simp at h
          | ok vs =>
              rw [hr] at h
              simp at h
              simp [← h, ih vs hr]

end MysqlService

/-- Claim C6 (confirmed): `list_resources` yields one Resource per database
    row returned by the SHOW DATABASES probe, and every driver failure of
    the probe — connect error, execute error, or a probe without a result
    set — degrades to the empty list instead of an exception. -/
theorem C6_theorem (env : MysqlService.DBEnv) (l : MysqlService.Ledger) :
    (∀ rs ns, env.connectExc = none →
        env.exec "SHOW DATABASES" [] = MysqlService.ExecOutcome.rows rs →
        MysqlService.rowsFirstAll rs = Except.ok ns →
        (MysqlService.list_resources env l).1
            = Except.ok (ns.map MysqlService.mkResourceOf)
          ∧ (ns.map MysqlService.mkResourceOf).length = rs.length)
    ∧ (∀ m, env.connectExc = some (PyExc.driverError m) →
        (MysqlService.list_resources env l).1 = Except.ok [])
    ∧ (∀ e, env.connectExc = none →
        env.exec "SHOW DATABASES" [] = MysqlService.ExecOutcome.raises e →
        e.isDriver = true →
        (MysqlService.list_resources env l).1 = Except.ok [])
    ∧ (∀ n, env.connectExc = none →
        env.exec "SHOW DATABASES" [] = MysqlService.ExecOutcome.affected n →
        (MysqlService.list_resources env l).1 = Except.ok []) := by
  refine ⟨?_, ?_, ?_, ?_⟩
  · intro rs ns hc he hn
    constructor
    · simp [MysqlService.list_resources, MysqlService.get_mysql_connection, hc, he,
        MysqlService.fetchallOf, hn]
    · simp [MysqlService.aux_rowsFirstAll_length rs ns hn]
  · intro m hc
    simp [MysqlService.list_resources, MysqlService.get_mysql_connection, hc,
      PyExc.isDriver]
  · intro e hc he hd
    simp [MysqlService.list_resources, MysqlService.get_mysql_connection, hc, he,
      MysqlService.fetchallOf, hd]
  · intro n hc he
    simp [MysqlService.list_resources, MysqlService.get_mysql_connection, hc, he,
      MysqlService.fetchallOf, PyExc.isDriver]

/-- Concrete instance of C6: a probe that raises a driver error yields the
    empty resource list. -/
theorem C6_witness :
    (MysqlService.list_resources
        ⟨none, fun _ _ => MysqlService.ExecOutcome.raises (PyExc.driverError "1045")⟩
        ⟨0, 0⟩).1 = Except.ok [] :=
  (C6_theorem _ ⟨0, 0⟩).2.2.1 (PyExc.driverError "1045") rfl rfl rfl

/-- Claim C9 (confirmed): in the data-store dispatcher a required argument
    that is present but falsy (empty string, 0, None, empty list) takes the
    same path as an absent one: the missing-parameter envelope is returned,
    no handler runs, and the connection ledger is untouched. -/
theorem C9_theorem (env : MysqlService.DBEnv) (args : Args) (l : MysqlService.Ledger) :
    (∀ v, argGet args "sql" = some v → pyTruthy v = false →
        MysqlService.call_tool env "query_mysql" args l
          = ⟨Except.ok [⟨"SQL查询语句是必需的"⟩], l, []⟩)
    ∧ (∀ v, argGet args "database" = some v → pyTruthy v = false →
        MysqlService.call_tool env "list_tables" args l
          = ⟨Except.ok [⟨"数据库名是必需的"⟩], l, []⟩)
    ∧ (∀ v, argGet args "database" = some v → pyTruthy v = false →
        MysqlService.call_tool env "describe_table" args l
          = ⟨Except.ok [⟨"数据库名和表名都是必需的"⟩], l, []⟩)
    ∧ (∀ v, argGet args "table" = some v → pyTruthy v = false →
        MysqlService.call_tool env "describe_table" args l
          = ⟨Except.ok [⟨"数据库名和表名都是必需的"⟩], l, []⟩)
    ∧ (∀ v, argGet args "database" = some v → pyTruthy v = false →
        MysqlService.call_tool env "search_table" args l
          = ⟨Except.ok [⟨"数据库名、表名、字段名和关键字都是必需的"⟩], l, []⟩)
    ∧ (∀ v, argGet args "table" = some v → pyTruthy v = false →
        MysqlService.call_tool env "search_table" args l
          = ⟨Except.ok [⟨"数据库名、表名、字段名和关键字都是必需的"⟩], l, []⟩)
    ∧ (∀ v, argGet args "column" = some v → pyTruthy v = false →
        MysqlService.call_tool env "search_table" args l
          = ⟨Except.ok [⟨"数据库名、表名、字段名和关键字都是必需的"⟩], l, []⟩)
    ∧ (∀ v, argGet args "keyword" = some v → pyTruthy v = false →
        MysqlService.call_tool env "search_table" args l
          = ⟨Except.ok [⟨"数据库名、表名、字段名和关键字都是必需的"⟩], l, []⟩) := by
  refine ⟨?_, ?_, ?_, ?_, ?_, ?_, ?_, ?_⟩ <;>
    · intro v h hf
      simp [MysqlService.call_tool, argGetD, h, hf]

/-- Concrete instance of C9: an empty sql string gets the missing-parameter
    envelope with no connection activity. -/
theorem C9_witness :
    MysqlService.call_tool
        ⟨none, fun _ _ => MysqlService.ExecOutcome.affected 0⟩
        "query_mysql" [("sql", PyVal.str "")] ⟨0, 0⟩
      = ⟨Except.ok [⟨"SQL查询语句是必需的"⟩], ⟨0, 0⟩, []⟩ :=
  (C9_theorem _ [("sql", PyVal.str "")] ⟨0, 0⟩).1 (PyVal.str "") rfl rfl

/-- Claim C2 (corrected — counterexample): `x1` is a required field of
    geometry's `draw_line`, yet calling it without `x1` executes the
    drawing handler (with None) and returns an image envelope, not a
    missing-parameter text. -/
theorem C2_counterexample :
    GeometryService.call_tool
        ⟨fun _ _ _ _ => Except.ok "IMG", fun _ => Except.ok "IMG",
         fun _ _ _ _ => Except.ok "IMG", fun _ => Except.ok "IMG",
         fun _ => Except.ok "IMG", fun _ _ _ => Except.ok "IMG",
         fun _ _ _ _ => Except.ok "IMG", fun _ _ => Except.ok "IMG",
         fun _ _ => Except.ok "IMG"⟩
        "draw_line" [("y1", PyVal.num 1), ("x2", PyVal.num 2), ("y2", PyVal.num 3)]
      = ([⟨"data:image/png;base64,IMG"⟩], ["draw_line"])
    ∧ ((GeometryService.list_tools ()).head?.map (fun t => (t.name, t.inputSchema.required)))
      = some ("draw_line", ["x1", "y1", "x2", "y2"]) :=
  ⟨rfl, rfl⟩

/-- Claim C2 (corrected — amended): a required field left absent yields the
    missing-parameter envelope, leaves the handler uninvoked and opens no
    connection for every data-store tool and for geometry's `draw_circle`;
    the math dispatcher raises KeyError for a missing required field before
    its handler runs and answers with the `计算出错: '<field>'` envelope;
    but geometry's remaining tools always invoke their handler, with None
    substituted for absent fields. -/
theorem C2_amended_theorem (env : MysqlService.DBEnv) (args : Args)
    (l : MysqlService.Ledger) (O : GeometryService.GeomOracle)
    (Om : MathService.MathOracle) :
    (argGet args "sql" = none →
        MysqlService.call_tool env "query_mysql" args l
          = ⟨Except.ok [⟨"SQL查询语句是必需的"⟩], l, []⟩)
    ∧ (argGet args "database" = none →
        MysqlService.call_tool env "list_tables" args l
          = ⟨Except.ok [⟨"数据库名是必需的"⟩], l, []⟩)
    ∧ (argGet args "database" = none →
        MysqlService.call_tool env "describe_table" args l
          = ⟨Except.ok [⟨"数据库名和表名都是必需的"⟩], l, []⟩)
    ∧ (argGet args "table" = none →
        MysqlService.call_tool env "describe_table" args l
          = ⟨Except.ok [⟨"数据库名和表名都是必需的"⟩], l, []⟩)
    ∧ (argGet args "database" = none →
        MysqlService.call_tool env "search_table" args l
          = ⟨Except.ok [⟨"数据库名、表名、字段名和关键字都是必需的"⟩], l, []⟩)
    ∧ (argGet args "table" = none →
        MysqlService.call_tool env "search_table" args l
          = ⟨Except.ok [⟨"数据库名、表名、字段名和关键字都是必需的"⟩], l, []⟩)
    ∧ (argGet args "column" = none →
        MysqlService.call_tool env "search_table" args l
          = ⟨Except.ok [⟨"数据库名、表名、字段名和关键字都是必需的"⟩], l, []⟩)
    ∧ (argGet args "keyword" = none →
        MysqlService.call_tool env "search_table" args l
          = ⟨Except.ok [⟨"数据库名、表名、字段名和关键字都是必需的"⟩], l, []⟩)
    ∧ (argGet args "center_x" = none →
        GeometryService.call_tool O "draw_circle" args = ([⟨"缺少必要参数"⟩], []))
    ∧ (argGet args "center_y" = none →
        GeometryService.call_tool O "draw_circle" args = ([⟨"缺少必要参数"⟩], []))
    ∧ (argGet args "radius" = none →
        GeometryService.call_tool O "draw_circle" args = ([⟨"缺少必要参数"⟩], []))
    ∧ (argGet args "base" = none →
        MathService.call_tool Om "triangle_calc" args
          = ([⟨"计算出错: \x27base\x27"⟩], []))
    ∧ (∀ q, argGet args "base" = some (PyVal.num q) → argGet args "height" = none →
        MathService.call_tool Om "triangle_calc" args
          = ([⟨"计算出错: \x27height\x27"⟩], []))
    ∧ (argGet args "radius" = none →
        MathService.call_tool Om "circle_calc" args
          = ([⟨"计算出错: \x27radius\x27"⟩], []))
    ∧ (argGet args "a" = none →
        MathService.call_tool Om "ellipse_calc" args
          = ([⟨"计算出错: \x27a\x27"⟩], []))
    ∧ (argGet args "a" = none →
        MathService.call_tool Om "trapezoid_calc" args
          = ([⟨"计算出错: \x27a\x27"⟩], []))
    ∧ (argGet args "angle" = none →
        MathService.call_tool Om "trig_functions" args
          = ([⟨"计算出错: \x27angle\x27"⟩], []))
    ∧ ((GeometryService.call_tool O "draw_line" args).2 = ["draw_line"]) := by
  refine ⟨?_, ?_, ?_, ?_, ?_, ?_, ?_, ?_, ?_, ?_, ?_, ?_, ?_, ?_, ?_, ?_, ?_, ?_⟩
  · intro h
    simp [MysqlService.call_tool, argGetD, h, pyTruthy]
  · intro h
    simp [MysqlService.call_tool, argGetD, h, pyTruthy]
  · intro h
    simp [MysqlService.call_tool, argGetD, h, pyTruthy]
  · intro h
    simp [MysqlService.call_tool, argGetD, h, pyTruthy]
  · intro h
    simp [MysqlService.call_tool, argGetD, h, pyTruthy]
  · intro h
    simp [MysqlService.call_tool, argGetD, h, pyTruthy]
  · intro h
    simp [MysqlService.call_tool, argGetD, h, pyTruthy]
  · intro h
    simp [MysqlService.call_tool, argGetD, h, pyTruthy]
  · intro h
    simp [GeometryService.call_tool, GeometryService.call_tool_body, h]
  · intro h
    simp [GeometryService.call_tool, GeometryService.call_tool_body, h]
  · intro h
    simp [GeometryService.call_tool, GeometryService.call_tool_body, h]
  · intro h
    simp [MathService.call_tool, MathService.call_tool_body, MathService.getFloatReq,
      dictItem, h, PyExc.message, Bind.bind, Except.bind]
  · intro q h hh
    simp [MathService.call_tool, MathService.call_tool_body, MathService.getFloatReq,
      dictItem, h, hh, pyFloat, PyExc.message, Bind.bind, Except.bind]
  · intro h
    simp [MathService.call_tool, MathService.call_tool_body, MathService.getFloatReq,
      dictItem, h, PyExc.message, Bind.bind, Except.bind]
  · intro h
    simp [MathService.call_tool, MathService.call_tool_body, MathService.getFloatReq,
      dictItem, h, PyExc.message, Bind.bind, Except.bind]
  · intro h
    simp [MathService.call_tool, MathService.call_tool_body, MathService.getFloatReq,
      dictItem, h, PyExc.message, Bind.bind, Except.bind]
  · intro h
    simp [MathService.call_tool, MathService.call_tool_body, MathService.getFloatReq,
      dictItem, h, PyExc.message, Bind.bind, Except.bind]
  · cases hr : O.draw_line (argGetD args "x1" PyVal.pynone) (argGetD args "y1" PyVal.pynone)
        (argGetD args "x2" PyVal.pynone) (argGetD args "y2" PyVal.pynone) <;>
      simp [GeometryService.call_tool, GeometryService.call_tool_body, hr]

/-- Concrete instance of C2 (amended): `query_mysql` called with no
    arguments at all returns the missing-parameter envelope and opens no
    connection. -/
theorem C2_witness :
    MysqlService.call_tool
        ⟨none, fun _ _ => MysqlService.ExecOutcome.affected 0⟩
        "query_mysql" [] ⟨0, 0⟩
      = ⟨Except.ok [⟨"SQL查询语句是必需的"⟩], ⟨0, 0⟩, []⟩ :=
  (C2_amended_theorem _ [] ⟨0, 0⟩
    ⟨fun _ _ _ _ => Except.ok "", fun _ => Except.ok "", fun _ _ _ _ => Except.ok "",
     fun _ => Except.ok "", fun _ => Except.ok "", fun _ _ _ => Except.ok "",
     fun _ _ _ _ => Except.ok "", fun _ _ => Except.ok "", fun _ _ => Except.ok ""⟩
    ⟨157 / 50, fun q => q, fun q => q, fun q => q, fun q => q, fun q => q⟩).1 rfl

namespace MysqlService

/-- The `except Error` arm shape: an error that survives it is not a
    driver error. -/
theorem aux_arm (ex e : PyExc) (r : OpResult)
    (h : (if ex.isDriver = true then Except.ok r else Except.error ex)
          = Except.error e) :
    e.isDriver = false := by
  by_cases hd : ex.isDriver = true
  · rw [if_pos hd] at h
    exact absurd h (by simp)
  · rw [if_neg hd] at h
    simp only [Except.error.injEq] at h
    subst h
    cases hb : ex.isDriver with
    | false => rfl
    | true => exact absurd hb hd

/-- `row[k]` raises only KeyError. -/
theorem aux_rowGet_err (r : Row) (k : String) (e : PyExc)
    (h : rowGet r k = Except.error e) : e.isDriver = false := by
  unfold rowGet at h
  cases hf : List.find? (fun p => p.1 == k) r with
  | some p => rw [hf] at h; exact absurd h (by simp)
  | none =>
      rw [hf] at h
      simp only [Except.error.injEq] at h
      rw [← h]
      rfl

/-- The `[row[k] for row in rs]` comprehension raises only KeyError. -/
theorem aux_rowsGetAll_err (rs : List Row) (k : String) (e : PyExc)
    (h : rowsGetAll rs k = Except.error e) : e.isDriver = false := by
  induction rs with
  | nil => simp [rowsGetAll] at h
  | cons r rest ih =>
      unfold rowsGetAll at h
      cases hg : rowGet r k with
      | error e0 =>
          rw [hg] at h
          simp only [Except.error.injEq] at h
          exact h ▸ aux_rowGet_err r k e0 hg
      | ok v =>
          rw [hg] at h
          cases hr : rowsGetAll rest k with
          | error e0 =>
              rw [hr] at h
              simp only [Except.error.injEq] at h
              exact ih (h ▸ hr)
          | ok vs => rw [hr] at h; exact absurd h (by simp)

/-- `db[0]` over the probe rows raises only IndexError. -/
theorem aux_rowsFirstAll_err (rs : List Row) (e : PyExc)
    (h : rowsFirstAll rs = Except.error e) : e.isDriver = false := by
  induction rs with
  | nil => simp [rowsFirstAll] at h
  | cons r rest ih =>
      unfold rowsFirstAll at h
      cases hg : rowFirst r with
      | error e0 =>
          rw [hg] at h
          simp only [Except.error.injEq] at h
          subst h
          cases r with
          | nil => simp [rowFirst] at hg; rw [← hg]; rfl
          | cons p tail => simp [rowFirst] at hg
      | ok v =>
          rw [hg] at h
          cases hr : rowsFirstAll rest with
          | error e0 =>
              rw [hr] at h
              simp only [Except.error.injEq] at h
              exact ih (h ▸ hr)
          | ok vs => rw [hr] at h; exact absurd h (by simp)

/-- A driver error never escapes `query_mysql` as an exception. -/
theorem aux_noesc_query (env : DBEnv) (sql : String) (l : Ledger) (e : PyExc)
    (h : (query_mysql env sql l).1 = Except.error e) : e.isDriver = false := by
  cases hc : env.connectExc with
  | some ex =>
      simp only [query_mysql, get_mysql_connection, hc] at h
      exact aux_arm ex e _ h
  | none =>
      simp only [query_mysql, get_mysql_connection, hc] at h
      cases he : env.exec sql [] with
      | rows rs => rw [he] at h; exact absurd h (by simp)
      | affected n => rw [he] at h; exact absurd h (by simp)
      | raises ex => rw [he] at h; exact aux_arm ex e _ h

end MysqlService

namespace MysqlService

/-- A driver error never escapes `list_databases` as an exception. -/
theorem aux_noesc_listdb (env : DBEnv) (l : Ledger) (e : PyExc)
    (h : (list_databases env l).1 = Except.error e) : e.isDriver = false := by
  cases hc : env.connectExc with
  | some ex =>
      simp only [list_databases, get_mysql_connection, hc] at h
      exact aux_arm ex e _ h
  | none =>
      simp only [list_databases, get_mysql_connection, hc] at h
      cases he : env.exec "SHOW DATABASES" [] with
      | rows rs =>
          rw [he] at h
          simp only [fetchallOf] at h
          cases hg : rowsGetAll rs "Database" with
          | error e0 =>
              rw [hg] at h
              simp only [Except.error.injEq] at h
              exact aux_rowsGetAll_err rs "Database" e (h ▸ hg)
          | ok vs => rw [hg] at h; exact absurd h (by simp)
      | affected n =>
          rw [he] at h
          simp only [fetchallOf] at h
          exact aux_arm _ e _ h
      | raises ex =>
          rw [he] at h
          simp only [fetchallOf] at h
          exact aux_arm ex e _ h

/-- A driver error never escapes `list_tables` as an exception. -/
theorem aux_noesc_listtables (env : DBEnv) (db : PyVal) (l : Ledger) (e : PyExc)
    (h : (list_tables env db l).1 = Except.error e) : e.isDriver = false := by
  cases hc : env.connectExc with
  | some ex =>
      simp only [list_tables, get_mysql_connection, hc] at h
      exact aux_arm ex e _ h
  | none =>
      simp only [list_tables, get_mysql_connection, hc] at h
      cases hu : env.exec ("USE `" ++ pyStrOf db ++ "`") [] with
      | raises ex =>
          rw [hu] at h
          simp only [execOnly] at h
          exact aux_arm ex e _ h
      | rows rs0 =>
          rw [hu] at h
          simp only [execOnly] at h
          cases he : env.exec "SHOW TABLES" [] with
          | rows rs =>
              rw [he] at h
              simp only [fetchallOf] at h
              cases hg : rowsGetAll rs ("Tables_in_" ++ pyStrOf db) with
              | error e0 =>
                  rw [hg] at h
                  simp only [Except.error.injEq] at h
                  exact aux_rowsGetAll_err rs _ e (h ▸ hg)
              | ok vs => rw [hg] at h; exact absurd h (by simp)
          | affected n =>
              rw [he] at h
              simp only [fetchallOf] at h
              exact aux_arm _ e _ h
          | raises ex =>
              rw [he] at h
              simp only [fetchallOf] at h
              exact aux_arm ex e _ h
      | affected n0 =>
          rw [hu] at h
          simp only [execOnly] at h
          cases he : env.exec "SHOW TABLES" [] with
          | rows rs =>
              rw [he] at h
              simp only [fetchallOf] at h
              cases hg : rowsGetAll rs ("Tables_in_" ++ pyStrOf db) with
              | error e0 =>
                  rw [hg] at h
                  simp only [Except.error.injEq] at h
                  exact aux_rowsGetAll_err rs _ e (h ▸ hg)
              | ok vs => rw [hg] at h; exact absurd h (by simp)
          | affected n =>
              rw [he] at h
              simp only [fetchallOf] at h
              exact aux_arm _ e _ h
          | raises ex =>
              rw [he] at h
              simp only [fetchallOf] at h
              exact aux_arm ex e _ h

/-- A driver error never escapes `describe_table` as an exception. -/
theorem aux_noesc_desc (env : DBEnv) (db tb : PyVal) (l : Ledger) (e : PyExc)
    (h : (describe_table env db tb l).1 = Except.error e) : e.isDriver = false := by
  cases hc : env.connectExc with
  | some ex =>
      simp only [describe_table, get_mysql_connection, hc] at h
      exact aux_arm ex e _ h
  | none =>
      simp only [describe_table, get_mysql_connection, hc] at h
      cases hu : env.exec ("USE `" ++ pyStrOf db ++ "`") [] with
      | raises ex =>
          rw [hu] at h
          simp only [execOnly] at h
          exact aux_arm ex e _ h
      | rows rs0 =>
          rw [hu] at h
          simp only [execOnly] at h
          cases he : env.exec ("DESCRIBE `" ++ pyStrOf tb ++ "`") [] with
          | rows rs => rw [he] at h; simp only [fetchallOf] at h; exact absurd h (by simp)
          | affected n =>
              rw [he] at h
              simp only [fetchallOf] at h
              exact aux_arm _ e _ h
          | raises ex =>
              rw [he] at h
              simp only [fetchallOf] at h
              exact aux_arm ex e _ h
      | affected n0 =>
          rw [hu] at h
          simp only [execOnly] at h
          cases he : env.exec ("DESCRIBE `" ++ pyStrOf tb ++ "`") [] with
          | rows rs => rw [he] at h; simp only [fetchallOf] at h; exact absurd h (by simp)
          | affected n =>
              rw [he] at h
              simp only [fetchallOf] at h
              exact aux_arm _ e _ h
          | raises ex =>
              rw [he] at h
              simp only [fetchallOf] at h
              exact aux_arm ex e _ h

/-- A driver error never escapes `search_table` as an exception. -/
theorem aux_noesc_search (env : DBEnv) (db tb col kw lim : PyVal) (l : Ledger)
    (e : PyExc)
    (h : (search_table env db tb col kw lim l).1 = Except.error e) :
    e.isDriver = false := by
  cases hc : env.connectExc with
  | some ex =>
      simp only [search_table, get_mysql_connection, hc] at h
      exact aux_arm ex e _ h
  | none =>
      simp only [search_table, get_mysql_connection, hc] at h
      cases hu : env.exec ("USE `" ++ pyStrOf db ++ "`") [] with
      | raises ex =>
          rw [hu] at h
          simp only [execOnly] at h
          exact aux_arm ex e _ h
      | rows rs0 =>
          rw [hu] at h
          simp only [execOnly] at h
          cases he : env.exec
              ("SELECT * FROM `" ++ pyStrOf tb ++ "` WHERE `" ++ pyStrOf col
                ++ "` LIKE %s LIMIT %s")
              [PyVal.str ("%" ++ pyStrOf kw ++ "%"), lim] with
          | rows rs => rw [he] at h; simp only [fetchallOf] at h; exact absurd h (by simp)
          | affected n =>
              rw [he] at h
              simp only [fetchallOf] at h
              exact aux_arm _ e _ h
          | raises ex =>
              rw [he] at h
              simp only [fetchallOf] at h
              exact aux_arm ex e _ h
      | affected n0 =>
          rw [hu] at h
          simp only [execOnly] at h
          cases he : env.exec
              ("SELECT * FROM `" ++ pyStrOf tb ++ "` WHERE `" ++ pyStrOf col
                ++ "` LIKE %s LIMIT %s")
              [PyVal.str ("%" ++ pyStrOf kw ++ "%"), lim] with
          | rows rs => rw [he] at h; simp only [fetchallOf] at h; exact absurd h (by simp)
          | affected n =>
              rw [he] at h
              simp only [fetchallOf] at h
              exact aux_arm _ e _ h
          | raises ex =>
              rw [he] at h
              simp only [fetchallOf] at h
              exact aux_arm ex e _ h

/-- The envelope wrapper preserves raised exceptions unchanged. -/
theorem aux_envelope_err (r : Except PyExc OpResult) (e : PyExc)
    (h : envelope r = Except.error e) : r = Except.error e := by
  cases r with
  | error e0 => simpa [envelope] using h
  | ok d => simp [envelope] at h

end MysqlService

/-- Claim C4 (corrected — counterexample): the data-store dispatcher has no
    try/except, so a non-driver exception raised while handling — here the
    ValueError that `int()` raises on a malformed MYSQL_PORT during connect
    — propagates out of `call_tool` instead of becoming an error envelope. -/
theorem C4_counterexample :
    (MysqlService.call_tool
        ⟨some (PyExc.valueError "invalid literal for int() with base 10: \x27abc\x27"),
         fun _ _ => MysqlService.ExecOutcome.affected 0⟩
        "query_mysql" [("sql", PyVal.str "SELECT 1")] ⟨0, 0⟩).response
      = Except.error (PyExc.valueError "invalid literal for int() with base 10: \x27abc\x27") :=
  rfl

/-- Claim C4 (corrected — amended): the math and geometry dispatchers catch
    every exception their bodies raise and convert it to the 计算出错 /
    绘图出错 envelope; the data-store dispatcher never lets a driver error
    escape (those are absorbed inside the handlers), but it has no
    catch-all for anything else. -/
theorem C4_amended_theorem (env : MysqlService.DBEnv)
    (O : GeometryService.GeomOracle) (Om : MathService.MathOracle) :
    (∀ name args e inv,
        MathService.call_tool_body Om name args = (Except.error e, inv) →
        MathService.call_tool Om name args = ([⟨"计算出错: " ++ e.message⟩], inv))
    ∧ (∀ name args e inv,
        GeometryService.call_tool_body O name args = (Except.error e, inv) →
        GeometryService.call_tool O name args = ([⟨"绘图出错: " ++ e.message⟩], inv))
    ∧ (∀ name args l e,
        (MysqlService.call_tool env name args l).response = Except.error e →
        e.isDriver = false) := by
  refine ⟨?_, ?_, ?_⟩
  · intro name args e inv h
    simp [MathService.call_tool, h]
  · intro name args e inv h
    simp [GeometryService.call_tool, h]
  · intro name args l e h
    unfold MysqlService.call_tool at h
    by_cases h1 : (name == "query_mysql") = true
    · rw [if_pos h1] at h
      simp only [] at h
      cases ht : pyTruthy (argGetD args "sql" PyVal.pynone) with
      | false => simp [ht] at h
      | true =>
          simp only [ht, Bool.not_true, if_neg (by simp : ¬ (false = true))] at h
          rw [show MysqlService.query_mysql env
                (pyStrOf (argGetD args "sql" PyVal.pynone)) l
              = ((MysqlService.query_mysql env
                  (pyStrOf (argGetD args "sql" PyVal.pynone)) l).1,
                 (MysqlService.query_mysql env
                  (pyStrOf (argGetD args "sql" PyVal.pynone)) l).2) from rfl] at h
          simp only [] at h
          exact MysqlService.aux_noesc_query env _ l e
            (MysqlService.aux_envelope_err _ e h)
    · rw [if_neg h1] at h
      by_cases h2 : (name == "list_databases") = true
      · rw [if_pos h2] at h
        rw [show MysqlService.list_databases env l
            = ((MysqlService.list_databases env l).1,
               (MysqlService.list_databases env l).2) from rfl] at h
        simp only [] at h
        exact MysqlService.aux_noesc_listdb env l e
          (MysqlService.aux_envelope_err _ e h)
      · rw [if_neg h2] at h
        by_cases h3 : (name == "list_tables") = true
        · rw [if_pos h3] at h
          simp only [] at h
          cases ht : pyTruthy (argGetD args "database" PyVal.pynone) with
          | false => simp [ht] at h
          | true =>
              simp only [ht, Bool.not_true, if_neg (by simp : ¬ (false = true))] at h
              rw [show MysqlService.list_tables env
                    (argGetD args "database" PyVal.pynone) l
                  = ((MysqlService.list_tables env
                      (argGetD args "database" PyVal.pynone) l).1,
                     (MysqlService.list_tables env
                      (argGetD args "database" PyVal.pynone) l).2) from rfl] at h
              simp only [] at h
              exact MysqlService.aux_noesc_listtables env _ l e
                (MysqlService.aux_envelope_err _ e h)
        · rw [if_neg h3] at h
          by_cases h4 : (name == "describe_table") = true
          · rw [if_pos h4] at h
            simp only [] at h
            cases hcond : (!pyTruthy (argGetD args "database" PyVal.pynone)
                || !pyTruthy (argGetD args "table" PyVal.pynone)) with
            | true => simp [hcond] at h
            | false =>
                simp only [hcond, if_neg (by simp : ¬ (false = true))] at h
                rw [show MysqlService.describe_table env
                      (argGetD args "database" PyVal.pynone)
                      (argGetD args "table" PyVal.pynone) l
                    = ((MysqlService.describe_table env
                        (argGetD args "database" PyVal.pynone)
                        (argGetD args "table" PyVal.pynone) l).1,
                       (MysqlService.describe_table env
                        (argGetD args "database" PyVal.pynone)
                        (argGetD args "table" PyVal.pynone) l).2) from rfl] at h
                simp only [] at h
                exact MysqlService.aux_noesc_desc env _ _ l e
                  (MysqlService.aux_envelope_err _ e h)
          · rw [if_neg h4] at h
            by_cases h5 : (name == "search_table") = true
            · rw [if_pos h5] at h
              simp only [] at h
              cases hcond : (!(pyTruthy (argGetD args "database" PyVal.pynone)
                  && pyTruthy (argGetD args "table" PyVal.pynone)
                  && pyTruthy (argGetD args "column" PyVal.pynone)
                  && pyTruthy (argGetD args "keyword" PyVal.pynone))) with
              | true => simp [hcond] at h
              | false =>
                  simp only [hcond, if_neg (by simp : ¬ (false = true))] at h
                  rw [show MysqlService.search_table env
                        (argGetD args "database" PyVal.pynone)
                        (argGetD args "table" PyVal.pynone)
                        (argGetD args "column" PyVal.pynone)
                        (argGetD args "keyword" PyVal.pynone)
                        (argGetD args "limit" (PyVal.num 20)) l
                      = ((MysqlService.search_table env
                          (argGetD args "database" PyVal.pynone)
                          (argGetD args "table" PyVal.pynone)
                          (argGetD args "column" PyVal.pynone)
                          (argGetD args "keyword" PyVal.pynone)
                          (argGetD args "limit" (PyVal.num 20)) l).1,
                         (MysqlService.search_table env
                          (argGetD args "database" PyVal.pynone)
                          (argGetD args "table" PyVal.pynone)
                          (argGetD args "column" PyVal.pynone)
                          (argGetD args "keyword" PyVal.pynone)
                          (argGetD args "limit" (PyVal.num 20)) l).2) from rfl] at h
                  simp only [] at h
                  exact MysqlService.aux_noesc_search env _ _ _ _ _ l e
                    (MysqlService.aux_envelope_err _ e h)
            · rw [if_neg h5] at h
              simp at h

/-- Concrete instance of C4 (amended): a ZeroDivisionError raised by the
    ellipse handler is converted by the math dispatcher into the 计算出错
    envelope. -/
theorem C4_witness :
    MathService.call_tool
        ⟨157 / 50, fun _ => 0, fun q => q, fun q => q, fun q => q, fun q => q⟩
        "ellipse_calc" [("a", PyVal.num 1), ("b", PyVal.num (-1))]
      = ([⟨"计算出错: float division by zero"⟩], ["calculate_ellipse"]) := by
  have hbody : MathService.call_tool_body
      ⟨157 / 50, fun _ => 0, fun q => q, fun q => q, fun q => q, fun q => q⟩
      "ellipse_calc" [("a", PyVal.num 1), ("b", PyVal.num (-1))]
      = (Except.error PyExc.zeroDivisionError, ["calculate_ellipse"]) := by
    simp [MathService.call_tool_body, MathService.getFloatReq, dictItem, argGet,
      List.find?, pyFloat, MathService.calculate_ellipse, pyDiv, Bind.bind, Except.bind]
  exact (C4_amended_theorem
      ⟨none, fun _ _ => MysqlService.ExecOutcome.affected 0⟩
      ⟨fun _ _ _ _ => Except.ok "", fun _ => Except.ok "", fun _ _ _ _ => Except.ok "",
       fun _ => Except.ok "", fun _ => Except.ok "", fun _ _ _ => Except.ok "",
       fun _ _ _ _ => Except.ok "", fun _ _ => Except.ok "", fun _ _ => Except.ok ""⟩
      ⟨157 / 50, fun _ => 0, fun q => q, fun q => q, fun q => q, fun q => q⟩).1
    "ellipse_calc" [("a", PyVal.num 1), ("b", PyVal.num (-1))]
    PyExc.zeroDivisionError ["calculate_ellipse"] hbody

namespace MysqlService

/-- `query_mysql` balances its ledger exactly: one open and one close,
    unless connect itself raised (then neither). -/
theorem aux_ledger_query (env : DBEnv) (sql : String) (l : Ledger) :
    (query_mysql env sql l).2
      = if env.connectExc.isSome then l else ⟨l.opened + 1, l.closed + 1⟩ := by
  cases hc : env.connectExc with
  | some ex => simp [query_mysql, get_mysql_connection, hc]
  | none =>
      cases he : env.exec sql [] <;>
        simp [query_mysql, get_mysql_connection, hc, he, closeConn]

/-- The only ledgers `list_databases` can leave behind. -/
theorem aux_ledger_listdb_cases (env : DBEnv) (l : Ledger) :
    (list_databases env l).2 = l
    ∨ (list_databases env l).2 = ⟨l.opened + 1, l.closed⟩
    ∨ (list_databases env l).2 = ⟨l.opened + 1, l.closed + 1⟩ := by
  cases hc : env.connectExc with
  | some ex => exact Or.inl (by simp [list_databases, get_mysql_connection, hc])
  | none =>
      cases hf : fetchallOf (env.exec "SHOW DATABASES" []) with
      | error e0 =>
          exact Or.inr (Or.inl (by simp [list_databases, get_mysql_connection, hc, hf]))
      | ok rs =>
          cases hg : rowsGetAll rs "Database" with
          | error e0 =>
              exact Or.inr (Or.inl
                (by simp [list_databases, get_mysql_connection, hc, hf, hg]))
          | ok vs =>
              exact Or.inr (Or.inr
                (by simp [list_databases, get_mysql_connection, hc, hf, hg, closeConn]))

/-- On its fully successful path `list_databases` closes exactly once. -/
theorem aux_ledger_listdb_succ (env : DBEnv) (l : Ledger) (vs : List PyVal)
    (h : (list_databases env l).1 = Except.ok (OpResult.succeedDatabases vs)) :
    (list_databases env l).2 = ⟨l.opened + 1, l.closed + 1⟩ := by
  cases hc : env.connectExc with
  | some ex =>
      by_cases hd : ex.isDriver = true <;>
        simp [list_databases, get_mysql_connection, hc, hd] at h
  | none =>
      cases hf : fetchallOf (env.exec "SHOW DATABASES" []) with
      | error e0 =>
          by_cases hd : e0.isDriver = true <;>
            simp [list_databases, get_mysql_connection, hc, hf, hd] at h
      | ok rs =>
          cases hg : rowsGetAll rs "Database" with
          | error e0 => simp [list_databases, get_mysql_connection, hc, hf, hg] at h
          | ok vs' =>
              simp [list_databases, get_mysql_connection, hc, hf, hg, closeConn]

/-- A driver error raised after a successful connect leaves the
    `list_databases` connection open. -/
theorem aux_ledger_listdb_leak (env : DBEnv) (l : Ledger) (e : PyExc)
    (hc : env.connectExc = none)
    (he : env.exec "SHOW DATABASES" [] = ExecOutcome.raises e)
    (hd : e.isDriver = true) :
    (list_databases env l).2 = ⟨l.opened + 1, l.closed⟩ := by
  simp [list_databases, get_mysql_connection, hc, he, fetchallOf, hd]

/-- The only ledgers `list_tables` can leave behind. -/
theorem aux_ledger_listtables_cases (env : DBEnv) (db : PyVal) (l : Ledger) :
    (list_tables env db l).2 = l
    ∨ (list_tables env db l).2 = ⟨l.opened + 1, l.closed⟩
    ∨ (list_tables env db l).2 = ⟨l.opened + 1, l.closed + 1⟩ := by
  cases hc : env.connectExc with
  | some ex => exact Or.inl (by simp [list_tables, get_mysql_connection, hc])
  | none =>
      cases hu : execOnly (env.exec ("USE `" ++ pyStrOf db ++ "`") []) with
      | error e0 =>
          exact Or.inr (Or.inl (by simp [list_tables, get_mysql_connection, hc, hu]))
      | ok u =>
          cases hf : fetchallOf (env.exec "SHOW TABLES" []) with
          | error e0 =>
              exact Or.inr (Or.inl
                (by simp [list_tables, get_mysql_connection, hc, hu, hf]))
          | ok rs =>
              cases hg : rowsGetAll rs ("Tables_in_" ++ pyStrOf db) with
              | error e0 =>
                  exact Or.inr (Or.inl
                    (by simp [list_tables, get_mysql_connection, hc, hu, hf, hg]))
              | ok vs =>
                  exact Or.inr (Or.inr
                    (by simp [list_tables, get_mysql_connection, hc, hu, hf, hg, closeConn]))

/-- On its fully successful path `list_tables` closes exactly once. -/
theorem aux_ledger_listtables_succ (env : DBEnv) (db : PyVal) (l : Ledger)
    (vs : List PyVal)
    (h : (list_tables env db l).1 = Except.ok (OpResult.succeedTables vs)) :
    (list_tables env db l).2 = ⟨l.opened + 1, l.closed + 1⟩ := by
  cases hc : env.connectExc with
  | some ex =>
      by_cases hd : ex.isDriver = true <;>
        simp [list_tables, get_mysql_connection, hc, hd] at h
  | none =>
      cases hu : execOnly (env.exec ("USE `" ++ pyStrOf db ++ "`") []) with
      | error e0 =>
          by_cases hd : e0.isDriver = true <;>
            simp [list_tables, get_mysql_connection, hc, hu, hd] at h
      | ok u =>
          cases hf : fetchallOf (env.exec "SHOW TABLES" []) with
          | error e0 =>
              by_cases hd : e0.isDriver = true <;>
                simp [list_tables, get_mysql_connection, hc, hu, hf, hd] at h
          | ok rs =>
              cases hg : rowsGetAll rs ("Tables_in_" ++ pyStrOf db) with
              | error e0 =>
                  simp [list_tables, get_mysql_connection, hc, hu, hf, hg] at h
              | ok vs' =>
                  simp [list_tables, get_mysql_connection, hc, hu, hf, hg, closeConn]

/-- A driver error on the `USE` statement leaves the `list_tables`
    connection open. -/
theorem aux_ledger_listtables_leak (env : DBEnv) (db : PyVal) (l : Ledger)
    (e : PyExc) (hc : env.connectExc = none)
    (he : env.exec ("USE `" ++ pyStrOf db ++ "`") [] = ExecOutcome.raises e)
    (hd : e.isDriver = true) :
    (list_tables env db l).2 = ⟨l.opened + 1, l.closed⟩ := by
  simp [list_tables, get_mysql_connection, hc, he, execOnly, hd]

/-- The only ledgers `describe_table` can leave behind. -/
theorem aux_ledger_desc_cases (env : DBEnv) (db tb : PyVal) (l : Ledger) :
    (describe_table env db tb l).2 = l
    ∨ (describe_table env db tb l).2 = ⟨l.opened + 1, l.closed⟩
    ∨ (describe_table env db tb l).2 = ⟨l.opened + 1, l.closed + 1⟩ := by
  cases hc : env.connectExc with
  | some ex => exact Or.inl (by simp [describe_table, get_mysql_connection, hc])
  | none =>
      cases hu : execOnly (env.exec ("USE `" ++ pyStrOf db ++ "`") []) with
      | error e0 =>
          exact Or.inr (Or.inl (by simp [describe_table, get_mysql_connection, hc, hu]))
      | ok u =>
          cases hf : fetchallOf (env.exec ("DESCRIBE `" ++ pyStrOf tb ++ "`") []) with
          | error e0 =>
              exact Or.inr (Or.inl
                (by simp [describe_table, get_mysql_connection, hc, hu, hf]))
          | ok rs =>
              exact Or.inr (Or.inr
                (by simp [describe_table, get_mysql_connection, hc, hu, hf, closeConn]))

/-- On its fully successful path `describe_table` closes exactly once. -/
theorem aux_ledger_desc_succ (env : DBEnv) (db tb : PyVal) (l : Ledger)
    (rows : List Row)
    (h : (describe_table env db tb l).1 = Except.ok (OpResult.succeedStructure rows)) :
    (describe_table env db tb l).2 = ⟨l.opened + 1, l.closed + 1⟩ := by
  cases hc : env.connectExc with
  | some ex =>
      by_cases hd : ex.isDriver = true <;>
        simp [describe_table, get_mysql_connection, hc, hd] at h
  | none =>
      cases hu : execOnly (env.exec ("USE `" ++ pyStrOf db ++ "`") []) with
      | error e0 =>
          by_cases hd : e0.isDriver = true <;>
            simp [describe_table, get_mysql_connection, hc, hu, hd] at h
      | ok u =>
          cases hf : fetchallOf (env.exec ("DESCRIBE `" ++ pyStrOf tb ++ "`") []) with
          | error e0 =>
              by_cases hd : e0.isDriver = true <;>
                simp [describe_table, get_mysql_connection, hc, hu, hf, hd] at h
          | ok rs =>
              simp [describe_table, get_mysql_connection, hc, hu, hf, closeConn]

/-- A driver error on the `USE` statement leaves the `describe_table`
    connection open. -/
theorem aux_ledger_desc_leak (env : DBEnv) (db tb : PyVal) (l : Ledger)
    (e : PyExc) (hc : env.connectExc = none)
    (he : env.exec ("USE `" ++ pyStrOf db ++ "`") [] = ExecOutcome.raises e)
    (hd : e.isDriver = true) :
    (describe_table env db tb l).2 = ⟨l.opened + 1, l.closed⟩ := by
  simp [describe_table, get_mysql_connection, hc, he, execOnly, hd]

/-- The only ledgers `search_table` can leave behind. -/
theorem aux_ledger_search_cases (env : DBEnv) (db tb col kw lim : PyVal)
    (l : Ledger) :
    (search_table env db tb col kw lim l).2 = l
    ∨ (search_table env db tb col kw lim l).2 = ⟨l.opened + 1, l.closed⟩
    ∨ (search_table env db tb col kw lim l).2 = ⟨l.opened + 1, l.closed + 1⟩ := by
  cases hc : env.connectExc with
  | some ex => exact Or.inl (by simp [search_table, get_mysql_connection, hc])
  | none =>
      cases hu : execOnly (env.exec ("USE `" ++ pyStrOf db ++ "`") []) with
      | error e0 =>
          exact Or.inr (Or.inl (by simp [search_table, get_mysql_connection, hc, hu]))
      | ok u =>
          cases hf : fetchallOf (env.exec
              ("SELECT * FROM `" ++ pyStrOf tb ++ "` WHERE `" ++ pyStrOf col
                ++ "` LIKE %s LIMIT %s")
              [PyVal.str ("%" ++ pyStrOf kw ++ "%"), lim]) with
          | error e0 =>
              exact Or.inr (Or.inl
                (by simp [search_table, get_mysql_connection, hc, hu, hf]))
          | ok rs =>
              exact Or.inr (Or.inr
                (by simp [search_table, get_mysql_connection, hc, hu, hf, closeConn]))

/-- On its fully successful path `search_table` closes exactly once. -/
theorem aux_ledger_search_succ (env : DBEnv) (db tb col kw lim : PyVal)
    (l : Ledger) (rows : List Row)
    (h : (search_table env db tb col kw lim l).1
          = Except.ok (OpResult.succeedData rows)) :
    (search_table env db tb col kw lim l).2 = ⟨l.opened + 1, l.closed + 1⟩ := by
  cases hc : env.connectExc with
  | some ex =>
      by_cases hd : ex.isDriver = true <;>
        simp [search_table, get_mysql_connection, hc, hd] at h
  | none =>
      cases hu : execOnly (env.exec ("USE `" ++ pyStrOf db ++ "`") []) with
      | error e0 =>
          by_cases hd : e0.isDriver = true <;>
            simp [search_table, get_mysql_connection, hc, hu, hd] at h
      | ok u =>
          cases hf : fetchallOf (env.exec
              ("SELECT * FROM `" ++ pyStrOf tb ++ "` WHERE `" ++ pyStrOf col
                ++ "` LIKE %s LIMIT %s")
              [PyVal.str ("%" ++ pyStrOf kw ++ "%"), lim]) with
          | error e0 =>
              by_cases hd : e0.isDriver = true <;>
                simp [search_table, get_mysql_connection, hc, hu, hf, hd] at h
          | ok rs =>
              simp [search_table, get_mysql_connection, hc, hu, hf, closeConn]

/-- A driver error on the `USE` statement leaves the `search_table`
    connection open. -/
theorem aux_ledger_search_leak (env : DBEnv) (db tb col kw lim : PyVal)
    (l : Ledger) (e : PyExc) (hc : env.connectExc = none)
    (he : env.exec ("USE `" ++ pyStrOf db ++ "`") [] = ExecOutcome.raises e)
    (hd : e.isDriver = true) :
    (search_table env db tb col kw lim l).2 = ⟨l.opened + 1, l.closed⟩ := by
  simp [search_table, get_mysql_connection, hc, he, execOnly, hd]

/-- `list_resources` never closes; it opens exactly when connect
    succeeds. -/
theorem aux_ledger_listres (env : DBEnv) (l : Ledger) :
    (list_resources env l).2.closed = l.closed
    ∧ (list_resources env l).2.opened
        = (if env.connectExc.isSome then l.opened else l.opened + 1) := by
  cases hc : env.connectExc with
  | some ex => simp [list_resources, get_mysql_connection, hc]
  | none =>
      cases hf : fetchallOf (env.exec "SHOW DATABASES" []) with
      | error e0 => simp [list_resources, get_mysql_connection, hc, hf]
      | ok rs =>
          cases hg : rowsFirstAll rs with
          | error e0 => simp [list_resources, get_mysql_connection, hc, hf, hg]
          | ok vs => simp [list_resources, get_mysql_connection, hc, hf, hg]

end MysqlService

/-- Claim C1 (corrected — counterexample): a fully successful
    `list_resources` probe opens one connection and closes none — the
    connection is not closed exactly once before the operation returns. -/
theorem C1_counterexample :
    (MysqlService.list_resources
        ⟨none, fun _ _ => MysqlService.ExecOutcome.rows [[("Database", PyVal.str "db1")]]⟩
        ⟨0, 0⟩).2 = ⟨1, 0⟩
    ∧ (MysqlService.list_resources
        ⟨none, fun _ _ => MysqlService.ExecOutcome.rows [[("Database", PyVal.str "db1")]]⟩
        ⟨0, 0⟩).1
      = Except.ok [MysqlService.mkResourceOf (PyVal.str "db1")] :=
  ⟨rfl, rfl⟩

/-- Claim C1 (corrected — amended): per operation, at most one connection
    is opened and it is never closed twice; `query_mysql` closes exactly
    once whenever it opens; `list_databases`, `list_tables`,
    `describe_table` and `search_table` close exactly once on their
    successful path but leave the connection open when the driver raises
    after a successful connect; the `list_resources` probe never closes the
    connection it opens. -/
theorem C1_amended_theorem (env : MysqlService.DBEnv) (sql : String)
    (db tb col kw lim : PyVal) (l : MysqlService.Ledger) :
    ((MysqlService.query_mysql env sql l).2
        = if env.connectExc.isSome then l else ⟨l.opened + 1, l.closed + 1⟩)
    ∧ ((MysqlService.list_resources env l).2.closed = l.closed
        ∧ (MysqlService.list_resources env l).2.opened
            = (if env.connectExc.isSome then l.opened else l.opened + 1))
    ∧ ((MysqlService.list_databases env l).2 = l
          ∨ (MysqlService.list_databases env l).2 = ⟨l.opened + 1, l.closed⟩
          ∨ (MysqlService.list_databases env l).2 = ⟨l.opened + 1, l.closed + 1⟩)
    ∧ (∀ vs, (MysqlService.list_databases env l).1
            = Except.ok (MysqlService.OpResult.succeedDatabases vs) →
        (MysqlService.list_databases env l).2 = ⟨l.opened + 1, l.closed + 1⟩)
    ∧ (∀ e, env.connectExc = none →
        env.exec "SHOW DATABASES" [] = MysqlService.ExecOutcome.raises e →
        e.isDriver = true →
        (MysqlService.list_databases env l).2 = ⟨l.opened + 1, l.closed⟩)
    ∧ ((MysqlService.list_tables env db l).2 = l
          ∨ (MysqlService.list_tables env db l).2 = ⟨l.opened + 1, l.closed⟩
          ∨ (MysqlService.list_tables env db l).2 = ⟨l.opened + 1, l.closed + 1⟩)
    ∧ (∀ vs, (MysqlService.list_tables env db l).1
            = Except.ok (MysqlService.OpResult.succeedTables vs) →
        (MysqlService.list_tables env db l).2 = ⟨l.opened + 1, l.closed + 1⟩)
    ∧ (∀ e, env.connectExc = none →
        env.exec ("USE `" ++ pyStrOf db ++ "`") [] = MysqlService.ExecOutcome.raises e →
        e.isDriver = true →
        (MysqlService.list_tables env db l).2 = ⟨l.opened + 1, l.closed⟩)
    ∧ ((MysqlService.describe_table env db tb l).2 = l
          ∨ (MysqlService.describe_table env db tb l).2 = ⟨l.opened + 1, l.closed⟩
          ∨ (MysqlService.describe_table env db tb l).2 = ⟨l.opened + 1, l.closed + 1⟩)
    ∧ (∀ rows, (MysqlService.describe_table env db tb l).1
            = Except.ok (MysqlService.OpResult.succeedStructure rows) →
        (MysqlService.describe_table env db tb l).2 = ⟨l.opened + 1, l.closed + 1⟩)
    ∧ (∀ e, env.connectExc = none →
        env.exec ("USE `" ++ pyStrOf db ++ "`") [] = MysqlService.ExecOutcome.raises e →
        e.isDriver = true →
        (MysqlService.describe_table env db tb l).2 = ⟨l.opened + 1, l.closed⟩)
    ∧ ((MysqlService.search_table env db tb col kw lim l).2 = l
          ∨ (MysqlService.search_table env db tb col kw lim l).2
              = ⟨l.opened + 1, l.closed⟩
          ∨ (MysqlService.search_table env db tb col kw lim l).2
              = ⟨l.opened + 1, l.closed + 1⟩)
    ∧ (∀ rows, (MysqlService.search_table env db tb col kw lim l).1
            = Except.ok (MysqlService.OpResult.succeedData rows) →
        (MysqlService.search_table env db tb col kw lim l).2
          = ⟨l.opened + 1, l.closed + 1⟩)
    ∧ (∀ e, env.connectExc = none →
        env.exec ("USE `" ++ pyStrOf db ++ "`") [] = MysqlService.ExecOutcome.raises e →
        e.isDriver = true →
        (MysqlService.search_table env db tb col kw lim l).2
          = ⟨l.opened + 1, l.closed⟩) := by
  refine ⟨MysqlService.aux_ledger_query env sql l,
    MysqlService.aux_ledger_listres env l,
    MysqlService.aux_ledger_listdb_cases env l,
    fun vs h => MysqlService.aux_ledger_listdb_succ env l vs h,
    fun e hc he hd => MysqlService.aux_ledger_listdb_leak env l e hc he hd,
    MysqlService.aux_ledger_listtables_cases env db l,
    fun vs h => MysqlService.aux_ledger_listtables_succ env db l vs h,
    fun e hc he hd => MysqlService.aux_ledger_listtables_leak env db l e hc he hd,
    MysqlService.aux_ledger_desc_cases env db tb l,
    fun rows h => MysqlService.aux_ledger_desc_succ env db tb l rows h,
    fun e hc he hd => MysqlService.aux_ledger_desc_leak env db tb l e hc he hd,
    MysqlService.aux_ledger_search_cases env db tb col kw lim l,
    fun rows h => MysqlService.aux_ledger_search_succ env db tb col kw lim l rows h,
    fun e hc he hd => MysqlService.aux_ledger_search_leak env db tb col kw lim l e hc he hd⟩

/-- Concrete instance of C1 (amended): `list_tables` on a database whose
    `USE` raises a driver error leaves its connection open (opened once,
    closed zero times). -/
theorem C1_witness :
    (MysqlService.list_tables
        ⟨none, fun _ _ => MysqlService.ExecOutcome.raises (PyExc.driverError "1049")⟩
        (PyVal.str "nosuchdb") ⟨0, 0⟩).2 = ⟨1, 0⟩ :=
  (C1_amended_theorem
      ⟨none, fun _ _ => MysqlService.ExecOutcome.raises (PyExc.driverError "1049")⟩
      "" (PyVal.str "nosuchdb") PyVal.pynone PyVal.pynone PyVal.pynone PyVal.pynone
      ⟨0, 0⟩).2.2.2.2.2.2.2.1
    (PyExc.driverError "1049") rfl rfl rfl
